import Mathlib

set_option maxRecDepth 4000

/-!
Verification of the fetch orchestration engine of `icanhazpdf`.

Shallow embedding of the JavaScript sources:
* `src/cache.mjs` — cache store (staleness, positive/negative entries, backends);
* `src/paperFetcher.mjs` — orchestrator (dispatcher, aggregator, deduplication);
* `src/circuitBreaker.mjs` — per-provider circuit breaker;
* `src/rateLimiter.mjs` — per-provider token bucket;
* `src/fetchers/baseFetcher.mjs` and `src/errors.mjs` — retry executor and
  error classifier.

Strings are modelled as `List Char`; timestamps (`Date.now()`) as `Int`
milliseconds; JavaScript objects as Lean structures with `Option` fields for
properties that may be absent.  Asynchrony is modelled by explicit state
passing and by quantifying over schedulers where completion order matters.
-/

namespace Icanhazpdf

/-! ## Cache store model (`src/cache.mjs`) -/

/-- Cache configuration, `CACHE_CONFIG` in `src/cache.mjs` (ages in ms). -/
structure CacheConfig where
  maxAgeSuccess : Int
  maxAgeNotFound : Int
  staleWhileRevalidate : Int
  maxEntries : Nat
deriving DecidableEq

/-- `CACHE_CONFIG` constants: 7 days, 1 day, 1 hour, 10000 entries. -/
def CACHE_CONFIG : CacheConfig :=
  { maxAgeSuccess := 7 * 24 * 60 * 60 * 1000
    maxAgeNotFound := 1 * 24 * 60 * 60 * 1000
    staleWhileRevalidate := 1 * 60 * 60 * 1000
    maxEntries := 10000 }

/-- A stored cache value.  `success` is `none` when the JS object has no
`success` property; `cachedAt` is the stored timestamp (absent for malformed
entries); `isNegativeCache` is the flag written by `cacheSetNegative`.
`payload` stands for all remaining result fields of the stored object. -/
structure CacheEntry where
  success : Option Bool
  cachedAt : Option Int
  isNegativeCache : Bool
  payload : Nat
deriving DecidableEq

/-- Result of `checkStaleness` in `src/cache.mjs` (lines 64-78). -/
structure Staleness where
  expired : Bool
  stale : Bool
deriving DecidableEq

/-- `checkStaleness(entry, isNegative)` from `src/cache.mjs`: entries without a
timestamp are treated as expired and stale; otherwise `age = now - cachedAt`,
`maxAge` depends on polarity, `expired = age > maxAge`,
`stale = age > maxAge - staleWhileRevalidate`. -/
def checkStaleness (entry : Option CacheEntry) (isNegative : Bool) (now : Int) :
    Staleness :=
  match entry with
  | none => { expired := true, stale := true }
  | some e =>
    match e.cachedAt with
    | none => { expired := true, stale := true }
    | some cachedTime =>
      let age := now - cachedTime
      let maxAge := if isNegative then CACHE_CONFIG.maxAgeNotFound
                    else CACHE_CONFIG.maxAgeSuccess
      { expired := decide (age > maxAge)
        stale := decide (age > maxAge - CACHE_CONFIG.staleWhileRevalidate) }

/-- The enriched value `cacheGet` returns on a hit (lines 121-128 of
`src/cache.mjs`): the entry spread together with `cached`, `stale`, `expired`
and `needsRevalidation` flags. -/
structure CacheHit where
  entry : CacheEntry
  cached : Bool
  stale : Bool
  expired : Bool
  needsRevalidation : Bool
deriving DecidableEq

/-- Staleness-handling tail of `cacheGet` (`src/cache.mjs` lines 110-128),
applied to the entry the backend returned.  `allowStale` is the option with JS
default `true` (line 88: `const allowStale = true` when the caller passes no
options); `inRevalQueue` models `revalidationQueue.has(normalizedKey)`.
An expired entry is dropped only when `allowStale` is `false`. -/
def cacheGetResult (entry : Option CacheEntry) (allowStale : Bool)
    (inRevalQueue : Bool) (now : Int) : Option CacheHit :=
  match entry with
  | none => none
  | some e =>
    let isNegative := e.success = some false
    let s := checkStaleness (some e) isNegative now
    if s.expired && !allowStale then none
    else
      some { entry := e, cached := true, stale := s.stale, expired := s.expired
             needsRevalidation := s.stale && !inRevalQueue }

/-! ## Title normalization (`normalizeTitle` in `src/cache.mjs`, lines 54-56)

`title.toLowerCase().trim().replace(/\s+/g, ' ')` over `List Char`
(well-formed Unicode strings as lists of scalar values).
`String.prototype.toLowerCase` is the locale-insensitive Unicode Default
Case Conversion: the full lowercase mapping of the Unicode Character
Database (version 14.0.0, the version of this machine's Unicode data, which
both `UnicodeData.txt` field 13 and the unconditional `SpecialCasing.txt`
entries feed), together with the one one-to-many mapping (U+0130) and the
context-sensitive final-sigma rule of `SpecialCasing.txt`. -/

/-- ECMAScript whitespace, the character class matched by the regex `\s` and
stripped by `String.prototype.trim`: tab, line feed, vertical tab, form feed,
carriage return, space, NBSP, the Unicode space separators, the line and
paragraph separators, and the BOM. -/
def isJsSpace (c : Char) : Bool :=
  let n := c.toNat
  n == 9 || n == 10 || n == 11 || n == 12 || n == 13 || n == 32 ||
  n == 0xa0 || n == 0x1680 || (decide (0x2000 ≤ n) && decide (n ≤ 0x200a)) ||
  n == 0x2028 || n == 0x2029 || n == 0x202f || n == 0x205f ||
  n == 0x3000 || n == 0xfeff

/-- The lowercase case mapping of the Unicode Character Database, version
14.0.0: `UnicodeData.txt` field 13 together with the unconditional
`SpecialCasing.txt` entries, range-compressed in code-point order.  A triple
`(first, last, lowerOfFirst)` maps every code point `n` in `[first, last]`
to `lowerOfFirst + (n - first)`; code points in no triple are unchanged.
The table is split into chunks purely so that lookups and proofs evaluate
shallowly; `lcTable` lists the chunks in order, each tagged with the first
and last code point it covers.  The single one-to-many mapping
(U+0130 lowercases to U+0069 U+0307) and the context-sensitive final-sigma
rule are handled in `lowerChar` and `jsLowerAux`. -/
def lcChunk0 : List (Nat × Nat × Nat) := [
  (0x41, 0x5a, 0x61), (0xc0, 0xd6, 0xe0), (0xd8, 0xde, 0xf8),
  (0x100, 0x100, 0x101), (0x102, 0x102, 0x103), (0x104, 0x104, 0x105),
  (0x106, 0x106, 0x107), (0x108, 0x108, 0x109), (0x10a, 0x10a, 0x10b),
  (0x10c, 0x10c, 0x10d), (0x10e, 0x10e, 0x10f), (0x110, 0x110, 0x111),
  (0x112, 0x112, 0x113), (0x114, 0x114, 0x115), (0x116, 0x116, 0x117),
  (0x118, 0x118, 0x119), (0x11a, 0x11a, 0x11b), (0x11c, 0x11c, 0x11d),
  (0x11e, 0x11e, 0x11f), (0x120, 0x120, 0x121), (0x122, 0x122, 0x123),
  (0x124, 0x124, 0x125), (0x126, 0x126, 0x127), (0x128, 0x128, 0x129),
  (0x12a, 0x12a, 0x12b), (0x12c, 0x12c, 0x12d)]

/-- Chunk 1 of the lowercase mapping table (see `lcChunk0`). -/
def lcChunk1 : List (Nat × Nat × Nat) := [
  (0x12e, 0x12e, 0x12f), (0x130, 0x130, 0x69), (0x132, 0x132, 0x133),
  (0x134, 0x134, 0x135), (0x136, 0x136, 0x137), (0x139, 0x139, 0x13a),
  (0x13b, 0x13b, 0x13c), (0x13d, 0x13d, 0x13e), (0x13f, 0x13f, 0x140),
  (0x141, 0x141, 0x142), (0x143, 0x143, 0x144), (0x145, 0x145, 0x146),
  (0x147, 0x147, 0x148), (0x14a, 0x14a, 0x14b), (0x14c, 0x14c, 0x14d),
  (0x14e, 0x14e, 0x14f), (0x150, 0x150, 0x151), (0x152, 0x152, 0x153),
  (0x154, 0x154, 0x155), (0x156, 0x156, 0x157), (0x158, 0x158, 0x159),
  (0x15a, 0x15a, 0x15b), (0x15c, 0x15c, 0x15d), (0x15e, 0x15e, 0x15f),
  (0x160, 0x160, 0x161), (0x162, 0x162, 0x163)]

/-- Chunk 2 of the lowercase mapping table (see `lcChunk0`). -/
def lcChunk2 : List (Nat × Nat × Nat) := [
  (0x164, 0x164, 0x165), (0x166, 0x166, 0x167), (0x168, 0x168, 0x169),
  (0x16a, 0x16a, 0x16b), (0x16c, 0x16c, 0x16d), (0x16e, 0x16e, 0x16f),
  (0x170, 0x170, 0x171), (0x172, 0x172, 0x173), (0x174, 0x174, 0x175),
  (0x176, 0x176, 0x177), (0x178, 0x178, 0xff), (0x179, 0x179, 0x17a),
  (0x17b, 0x17b, 0x17c), (0x17d, 0x17d, 0x17e), (0x181, 0x181, 0x253),
  (0x182, 0x182, 0x183), (0x184, 0x184, 0x185), (0x186, 0x186, 0x254),
  (0x187, 0x187, 0x188), (0x189, 0x18a, 0x256), (0x18b, 0x18b, 0x18c),
  (0x18e, 0x18e, 0x1dd), (0x18f, 0x18f, 0x259), (0x190, 0x190, 0x25b),
  (0x191, 0x191, 0x192), (0x193, 0x193, 0x260)]

/-- Chunk 3 of the lowercase mapping table (see `lcChunk0`). -/
def lcChunk3 : List (Nat × Nat × Nat) := [
  (0x194, 0x194, 0x263), (0x196, 0x196, 0x269), (0x197, 0x197, 0x268),
  (0x198, 0x198, 0x199), (0x19c, 0x19c, 0x26f), (0x19d, 0x19d, 0x272),
  (0x19f, 0x19f, 0x275), (0x1a0, 0x1a0, 0x1a1), (0x1a2, 0x1a2, 0x1a3),
  (0x1a4, 0x1a4, 0x1a5), (0x1a6, 0x1a6, 0x280), (0x1a7, 0x1a7, 0x1a8),
  (0x1a9, 0x1a9, 0x283), (0x1ac, 0x1ac, 0x1ad), (0x1ae, 0x1ae, 0x288),
  (0x1af, 0x1af, 0x1b0), (0x1b1, 0x1b2, 0x28a), (0x1b3, 0x1b3, 0x1b4),
  (0x1b5, 0x1b5, 0x1b6), (0x1b7, 0x1b7, 0x292), (0x1b8, 0x1b8, 0x1b9),
  (0x1bc, 0x1bc, 0x1bd), (0x1c4, 0x1c4, 0x1c6), (0x1c5, 0x1c5, 0x1c6),
  (0x1c7, 0x1c7, 0x1c9), (0x1c8, 0x1c8, 0x1c9)]

/-- Chunk 4 of the lowercase mapping table (see `lcChunk0`). -/
def lcChunk4 : List (Nat × Nat × Nat) := [
  (0x1ca, 0x1ca, 0x1cc), (0x1cb, 0x1cb, 0x1cc), (0x1cd, 0x1cd, 0x1ce),
  (0x1cf, 0x1cf, 0x1d0), (0x1d1, 0x1d1, 0x1d2), (0x1d3, 0x1d3, 0x1d4),
  (0x1d5, 0x1d5, 0x1d6), (0x1d7, 0x1d7, 0x1d8), (0x1d9, 0x1d9, 0x1da),
  (0x1db, 0x1db, 0x1dc), (0x1de, 0x1de, 0x1df), (0x1e0, 0x1e0, 0x1e1),
  (0x1e2, 0x1e2, 0x1e3), (0x1e4, 0x1e4, 0x1e5), (0x1e6, 0x1e6, 0x1e7),
  (0x1e8, 0x1e8, 0x1e9), (0x1ea, 0x1ea, 0x1eb), (0x1ec, 0x1ec, 0x1ed),
  (0x1ee, 0x1ee, 0x1ef), (0x1f1, 0x1f1, 0x1f3), (0x1f2, 0x1f2, 0x1f3),
  (0x1f4, 0x1f4, 0x1f5), (0x1f6, 0x1f6, 0x195), (0x1f7, 0x1f7, 0x1bf),
  (0x1f8, 0x1f8, 0x1f9), (0x1fa, 0x1fa, 0x1fb)]

/-- Chunk 5 of the lowercase mapping table (see `lcChunk0`). -/
def lcChunk5 : List (Nat × Nat × Nat) := [
  (0x1fc, 0x1fc, 0x1fd), (0x1fe, 0x1fe, 0x1ff), (0x200, 0x200, 0x201),
  (0x202, 0x202, 0x203), (0x204, 0x204, 0x205), (0x206, 0x206, 0x207),
  (0x208, 0x208, 0x209), (0x20a, 0x20a, 0x20b), (0x20c, 0x20c, 0x20d),
  (0x20e, 0x20e, 0x20f), (0x210, 0x210, 0x211), (0x212, 0x212, 0x213),
  (0x214, 0x214, 0x215), (0x216, 0x216, 0x217), (0x218, 0x218, 0x219),
  (0x21a, 0x21a, 0x21b), (0x21c, 0x21c, 0x21d), (0x21e, 0x21e, 0x21f),
  (0x220, 0x220, 0x19e), (0x222, 0x222, 0x223), (0x224, 0x224, 0x225),
  (0x226, 0x226, 0x227), (0x228, 0x228, 0x229), (0x22a, 0x22a, 0x22b),
  (0x22c, 0x22c, 0x22d), (0x22e, 0x22e, 0x22f)]

/-- Chunk 6 of the lowercase mapping table (see `lcChunk0`). -/
def lcChunk6 : List (Nat × Nat × Nat) := [
  (0x230, 0x230, 0x231), (0x232, 0x232, 0x233), (0x23a, 0x23a, 0x2c65),
  (0x23b, 0x23b, 0x23c), (0x23d, 0x23d, 0x19a), (0x23e, 0x23e, 0x2c66),
  (0x241, 0x241, 0x242), (0x243, 0x243, 0x180), (0x244, 0x244, 0x289),
  (0x245, 0x245, 0x28c), (0x246, 0x246, 0x247), (0x248, 0x248, 0x249),
  (0x24a, 0x24a, 0x24b), (0x24c, 0x24c, 0x24d), (0x24e, 0x24e, 0x24f),
  (0x370, 0x370, 0x371), (0x372, 0x372, 0x373), (0x376, 0x376, 0x377),
  (0x37f, 0x37f, 0x3f3), (0x386, 0x386, 0x3ac), (0x388, 0x38a, 0x3ad),
  (0x38c, 0x38c, 0x3cc), (0x38e, 0x38f, 0x3cd), (0x391, 0x3a1, 0x3b1),
  (0x3a3, 0x3ab, 0x3c3), (0x3cf, 0x3cf, 0x3d7)]

/-- Chunk 7 of the lowercase mapping table (see `lcChunk0`). -/
def lcChunk7 : List (Nat × Nat × Nat) := [
  (0x3d8, 0x3d8, 0x3d9), (0x3da, 0x3da, 0x3db), (0x3dc, 0x3dc, 0x3dd),
  (0x3de, 0x3de, 0x3df), (0x3e0, 0x3e0, 0x3e1), (0x3e2, 0x3e2, 0x3e3),
  (0x3e4, 0x3e4, 0x3e5), (0x3e6, 0x3e6, 0x3e7), (0x3e8, 0x3e8, 0x3e9),
  (0x3ea, 0x3ea, 0x3eb), (0x3ec, 0x3ec, 0x3ed), (0x3ee, 0x3ee, 0x3ef),
  (0x3f4, 0x3f4, 0x3b8), (0x3f7, 0x3f7, 0x3f8), (0x3f9, 0x3f9, 0x3f2),
  (0x3fa, 0x3fa, 0x3fb), (0x3fd, 0x3ff, 0x37b), (0x400, 0x40f, 0x450),
  (0x410, 0x42f, 0x430), (0x460, 0x460, 0x461), (0x462, 0x462, 0x463),
  (0x464, 0x464, 0x465), (0x466, 0x466, 0x467), (0x468, 0x468, 0x469),
  (0x46a, 0x46a, 0x46b), (0x46c, 0x46c, 0x46d)]

/-- Chunk 8 of the lowercase mapping table (see `lcChunk0`). -/
def lcChunk8 : List (Nat × Nat × Nat) := [
  (0x46e, 0x46e, 0x46f), (0x470, 0x470, 0x471), (0x472, 0x472, 0x473),
  (0x474, 0x474, 0x475), (0x476, 0x476, 0x477), (0x478, 0x478, 0x479),
  (0x47a, 0x47a, 0x47b), (0x47c, 0x47c, 0x47d), (0x47e, 0x47e, 0x47f),
  (0x480, 0x480, 0x481), (0x48a, 0x48a, 0x48b), (0x48c, 0x48c, 0x48d),
  (0x48e, 0x48e, 0x48f), (0x490, 0x490, 0x491), (0x492, 0x492, 0x493),
  (0x494, 0x494, 0x495), (0x496, 0x496, 0x497), (0x498, 0x498, 0x499),
  (0x49a, 0x49a, 0x49b), (0x49c, 0x49c, 0x49d), (0x49e, 0x49e, 0x49f),
  (0x4a0, 0x4a0, 0x4a1), (0x4a2, 0x4a2, 0x4a3), (0x4a4, 0x4a4, 0x4a5),
  (0x4a6, 0x4a6, 0x4a7), (0x4a8, 0x4a8, 0x4a9)]

/-- Chunk 9 of the lowercase mapping table (see `lcChunk0`). -/
def lcChunk9 : List (Nat × Nat × Nat) := [
  (0x4aa, 0x4aa, 0x4ab), (0x4ac, 0x4ac, 0x4ad), (0x4ae, 0x4ae, 0x4af),
  (0x4b0, 0x4b0, 0x4b1), (0x4b2, 0x4b2, 0x4b3), (0x4b4, 0x4b4, 0x4b5),
  (0x4b6, 0x4b6, 0x4b7), (0x4b8, 0x4b8, 0x4b9), (0x4ba, 0x4ba, 0x4bb),
  (0x4bc, 0x4bc, 0x4bd), (0x4be, 0x4be, 0x4bf), (0x4c0, 0x4c0, 0x4cf),
  (0x4c1, 0x4c1, 0x4c2), (0x4c3, 0x4c3, 0x4c4), (0x4c5, 0x4c5, 0x4c6),
  (0x4c7, 0x4c7, 0x4c8), (0x4c9, 0x4c9, 0x4ca), (0x4cb, 0x4cb, 0x4cc),
  (0x4cd, 0x4cd, 0x4ce), (0x4d0, 0x4d0, 0x4d1), (0x4d2, 0x4d2, 0x4d3),
  (0x4d4, 0x4d4, 0x4d5), (0x4d6, 0x4d6, 0x4d7), (0x4d8, 0x4d8, 0x4d9),
  (0x4da, 0x4da, 0x4db), (0x4dc, 0x4dc, 0x4dd)]

/-- Chunk 10 of the lowercase mapping table (see `lcChunk0`). -/
def lcChunk10 : List (Nat × Nat × Nat) := [
  (0x4de, 0x4de, 0x4df), (0x4e0, 0x4e0, 0x4e1), (0x4e2, 0x4e2, 0x4e3),
  (0x4e4, 0x4e4, 0x4e5), (0x4e6, 0x4e6, 0x4e7), (0x4e8, 0x4e8, 0x4e9),
  (0x4ea, 0x4ea, 0x4eb), (0x4ec, 0x4ec, 0x4ed), (0x4ee, 0x4ee, 0x4ef),
  (0x4f0, 0x4f0, 0x4f1), (0x4f2, 0x4f2, 0x4f3), (0x4f4, 0x4f4, 0x4f5),
  (0x4f6, 0x4f6, 0x4f7), (0x4f8, 0x4f8, 0x4f9), (0x4fa, 0x4fa, 0x4fb),
  (0x4fc, 0x4fc, 0x4fd), (0x4fe, 0x4fe, 0x4ff), (0x500, 0x500, 0x501),
  (0x502, 0x502, 0x503), (0x504, 0x504, 0x505), (0x506, 0x506, 0x507),
  (0x508, 0x508, 0x509), (0x50a, 0x50a, 0x50b), (0x50c, 0x50c, 0x50d),
  (0x50e, 0x50e, 0x50f), (0x510, 0x510, 0x511)]

/-- Chunk 11 of the lowercase mapping table (see `lcChunk0`). -/
def lcChunk11 : List (Nat × Nat × Nat) := [
  (0x512, 0x512, 0x513), (0x514, 0x514, 0x515), (0x516, 0x516, 0x517),
  (0x518, 0x518, 0x519), (0x51a, 0x51a, 0x51b), (0x51c, 0x51c, 0x51d),
  (0x51e, 0x51e, 0x51f), (0x520, 0x520, 0x521), (0x522, 0x522, 0x523),
  (0x524, 0x524, 0x525), (0x526, 0x526, 0x527), (0x528, 0x528, 0x529),
  (0x52a, 0x52a, 0x52b), (0x52c, 0x52c, 0x52d), (0x52e, 0x52e, 0x52f),
  (0x531, 0x556, 0x561), (0x10a0, 0x10c5, 0x2d00), (0x10c7, 0x10c7, 0x2d27),
  (0x10cd, 0x10cd, 0x2d2d), (0x13a0, 0x13ef, 0xab70),
  (0x13f0, 0x13f5, 0x13f8), (0x1c90, 0x1cba, 0x10d0),
  (0x1cbd, 0x1cbf, 0x10fd), (0x1e00, 0x1e00, 0x1e01),
  (0x1e02, 0x1e02, 0x1e03), (0x1e04, 0x1e04, 0x1e05)]

/-- Chunk 12 of the lowercase mapping table (see `lcChunk0`). -/
def lcChunk12 : List (Nat × Nat × Nat) := [
  (0x1e06, 0x1e06, 0x1e07), (0x1e08, 0x1e08, 0x1e09),
  (0x1e0a, 0x1e0a, 0x1e0b), (0x1e0c, 0x1e0c, 0x1e0d),
  (0x1e0e, 0x1e0e, 0x1e0f), (0x1e10, 0x1e10, 0x1e11),
  (0x1e12, 0x1e12, 0x1e13), (0x1e14, 0x1e14, 0x1e15),
  (0x1e16, 0x1e16, 0x1e17), (0x1e18, 0x1e18, 0x1e19),
  (0x1e1a, 0x1e1a, 0x1e1b), (0x1e1c, 0x1e1c, 0x1e1d),
  (0x1e1e, 0x1e1e, 0x1e1f), (0x1e20, 0x1e20, 0x1e21),
  (0x1e22, 0x1e22, 0x1e23), (0x1e24, 0x1e24, 0x1e25),
  (0x1e26, 0x1e26, 0x1e27), (0x1e28, 0x1e28, 0x1e29),
  (0x1e2a, 0x1e2a, 0x1e2b), (0x1e2c, 0x1e2c, 0x1e2d),
  (0x1e2e, 0x1e2e, 0x1e2f), (0x1e30, 0x1e30, 0x1e31),
  (0x1e32, 0x1e32, 0x1e33), (0x1e34, 0x1e34, 0x1e35),
  (0x1e36, 0x1e36, 0x1e37), (0x1e38, 0x1e38, 0x1e39)]

/-- Chunk 13 of the lowercase mapping table (see `lcChunk0`). -/
def lcChunk13 : List (Nat × Nat × Nat) := [
  (0x1e3a, 0x1e3a, 0x1e3b), (0x1e3c, 0x1e3c, 0x1e3d),
  (0x1e3e, 0x1e3e, 0x1e3f), (0x1e40, 0x1e40, 0x1e41),
  (0x1e42, 0x1e42, 0x1e43), (0x1e44, 0x1e44, 0x1e45),
  (0x1e46, 0x1e46, 0x1e47), (0x1e48, 0x1e48, 0x1e49),
  (0x1e4a, 0x1e4a, 0x1e4b), (0x1e4c, 0x1e4c, 0x1e4d),
  (0x1e4e, 0x1e4e, 0x1e4f), (0x1e50, 0x1e50, 0x1e51),
  (0x1e52, 0x1e52, 0x1e53), (0x1e54, 0x1e54, 0x1e55),
  (0x1e56, 0x1e56, 0x1e57), (0x1e58, 0x1e58, 0x1e59),
  (0x1e5a, 0x1e5a, 0x1e5b), (0x1e5c, 0x1e5c, 0x1e5d),
  (0x1e5e, 0x1e5e, 0x1e5f), (0x1e60, 0x1e60, 0x1e61),
  (0x1e62, 0x1e62, 0x1e63), (0x1e64, 0x1e64, 0x1e65),
  (0x1e66, 0x1e66, 0x1e67), (0x1e68, 0x1e68, 0x1e69),
  (0x1e6a, 0x1e6a, 0x1e6b), (0x1e6c, 0x1e6c, 0x1e6d)]

/-- Chunk 14 of the lowercase mapping table (see `lcChunk0`). -/
def lcChunk14 : List (Nat × Nat × Nat) := [
  (0x1e6e, 0x1e6e, 0x1e6f), (0x1e70, 0x1e70, 0x1e71),
  (0x1e72, 0x1e72, 0x1e73), (0x1e74, 0x1e74, 0x1e75),
  (0x1e76, 0x1e76, 0x1e77), (0x1e78, 0x1e78, 0x1e79),
  (0x1e7a, 0x1e7a, 0x1e7b), (0x1e7c, 0x1e7c, 0x1e7d),
  (0x1e7e, 0x1e7e, 0x1e7f), (0x1e80, 0x1e80, 0x1e81),
  (0x1e82, 0x1e82, 0x1e83), (0x1e84, 0x1e84, 0x1e85),
  (0x1e86, 0x1e86, 0x1e87), (0x1e88, 0x1e88, 0x1e89),
  (0x1e8a, 0x1e8a, 0x1e8b), (0x1e8c, 0x1e8c, 0x1e8d),
  (0x1e8e, 0x1e8e, 0x1e8f), (0x1e90, 0x1e90, 0x1e91),
  (0x1e92, 0x1e92, 0x1e93), (0x1e94, 0x1e94, 0x1e95), (0x1e9e, 0x1e9e, 0xdf),
  (0x1ea0, 0x1ea0, 0x1ea1), (0x1ea2, 0x1ea2, 0x1ea3),
  (0x1ea4, 0x1ea4, 0x1ea5), (0x1ea6, 0x1ea6, 0x1ea7),
  (0x1ea8, 0x1ea8, 0x1ea9)]

/-- Chunk 15 of the lowercase mapping table (see `lcChunk0`). -/
def lcChunk15 : List (Nat × Nat × Nat) := [
  (0x1eaa, 0x1eaa, 0x1eab), (0x1eac, 0x1eac, 0x1ead),
  (0x1eae, 0x1eae, 0x1eaf), (0x1eb0, 0x1eb0, 0x1eb1),
  (0x1eb2, 0x1eb2, 0x1eb3), (0x1eb4, 0x1eb4, 0x1eb5),
  (0x1eb6, 0x1eb6, 0x1eb7), (0x1eb8, 0x1eb8, 0x1eb9),
  (0x1eba, 0x1eba, 0x1ebb), (0x1ebc, 0x1ebc, 0x1ebd),
  (0x1ebe, 0x1ebe, 0x1ebf), (0x1ec0, 0x1ec0, 0x1ec1),
  (0x1ec2, 0x1ec2, 0x1ec3), (0x1ec4, 0x1ec4, 0x1ec5),
  (0x1ec6, 0x1ec6, 0x1ec7), (0x1ec8, 0x1ec8, 0x1ec9),
  (0x1eca, 0x1eca, 0x1ecb), (0x1ecc, 0x1ecc, 0x1ecd),
  (0x1ece, 0x1ece, 0x1ecf), (0x1ed0, 0x1ed0, 0x1ed1),
  (0x1ed2, 0x1ed2, 0x1ed3), (0x1ed4, 0x1ed4, 0x1ed5),
  (0x1ed6, 0x1ed6, 0x1ed7), (0x1ed8, 0x1ed8, 0x1ed9),
  (0x1eda, 0x1eda, 0x1edb), (0x1edc, 0x1edc, 0x1edd)]

/-- Chunk 16 of the lowercase mapping table (see `lcChunk0`). -/
def lcChunk16 : List (Nat × Nat × Nat) := [
  (0x1ede, 0x1ede, 0x1edf), (0x1ee0, 0x1ee0, 0x1ee1),
  (0x1ee2, 0x1ee2, 0x1ee3), (0x1ee4, 0x1ee4, 0x1ee5),
  (0x1ee6, 0x1ee6, 0x1ee7), (0x1ee8, 0x1ee8, 0x1ee9),
  (0x1eea, 0x1eea, 0x1eeb), (0x1eec, 0x1eec, 0x1eed),
  (0x1eee, 0x1eee, 0x1eef), (0x1ef0, 0x1ef0, 0x1ef1),
  (0x1ef2, 0x1ef2, 0x1ef3), (0x1ef4, 0x1ef4, 0x1ef5),
  (0x1ef6, 0x1ef6, 0x1ef7), (0x1ef8, 0x1ef8, 0x1ef9),
  (0x1efa, 0x1efa, 0x1efb), (0x1efc, 0x1efc, 0x1efd),
  (0x1efe, 0x1efe, 0x1eff), (0x1f08, 0x1f0f, 0x1f00),
  (0x1f18, 0x1f1d, 0x1f10), (0x1f28, 0x1f2f, 0x1f20),
  (0x1f38, 0x1f3f, 0x1f30), (0x1f48, 0x1f4d, 0x1f40),
  (0x1f59, 0x1f59, 0x1f51), (0x1f5b, 0x1f5b, 0x1f53),
  (0x1f5d, 0x1f5d, 0x1f55), (0x1f5f, 0x1f5f, 0x1f57)]

/-- Chunk 17 of the lowercase mapping table (see `lcChunk0`). -/
def lcChunk17 : List (Nat × Nat × Nat) := [
  (0x1f68, 0x1f6f, 0x1f60), (0x1f88, 0x1f8f, 0x1f80),
  (0x1f98, 0x1f9f, 0x1f90), (0x1fa8, 0x1faf, 0x1fa0),
  (0x1fb8, 0x1fb9, 0x1fb0), (0x1fba, 0x1fbb, 0x1f70),
  (0x1fbc, 0x1fbc, 0x1fb3), (0x1fc8, 0x1fcb, 0x1f72),
  (0x1fcc, 0x1fcc, 0x1fc3), (0x1fd8, 0x1fd9, 0x1fd0),
  (0x1fda, 0x1fdb, 0x1f76), (0x1fe8, 0x1fe9, 0x1fe0),
  (0x1fea, 0x1feb, 0x1f7a), (0x1fec, 0x1fec, 0x1fe5),
  (0x1ff8, 0x1ff9, 0x1f78), (0x1ffa, 0x1ffb, 0x1f7c),
  (0x1ffc, 0x1ffc, 0x1ff3), (0x2126, 0x2126, 0x3c9), (0x212a, 0x212a, 0x6b),
  (0x212b, 0x212b, 0xe5), (0x2132, 0x2132, 0x214e), (0x2160, 0x216f, 0x2170),
  (0x2183, 0x2183, 0x2184), (0x24b6, 0x24cf, 0x24d0),
  (0x2c00, 0x2c2f, 0x2c30), (0x2c60, 0x2c60, 0x2c61)]

/-- Chunk 18 of the lowercase mapping table (see `lcChunk0`). -/
def lcChunk18 : List (Nat × Nat × Nat) := [
  (0x2c62, 0x2c62, 0x26b), (0x2c63, 0x2c63, 0x1d7d), (0x2c64, 0x2c64, 0x27d),
  (0x2c67, 0x2c67, 0x2c68), (0x2c69, 0x2c69, 0x2c6a),
  (0x2c6b, 0x2c6b, 0x2c6c), (0x2c6d, 0x2c6d, 0x251), (0x2c6e, 0x2c6e, 0x271),
  (0x2c6f, 0x2c6f, 0x250), (0x2c70, 0x2c70, 0x252), (0x2c72, 0x2c72, 0x2c73),
  (0x2c75, 0x2c75, 0x2c76), (0x2c7e, 0x2c7f, 0x23f),
  (0x2c80, 0x2c80, 0x2c81), (0x2c82, 0x2c82, 0x2c83),
  (0x2c84, 0x2c84, 0x2c85), (0x2c86, 0x2c86, 0x2c87),
  (0x2c88, 0x2c88, 0x2c89), (0x2c8a, 0x2c8a, 0x2c8b),
  (0x2c8c, 0x2c8c, 0x2c8d), (0x2c8e, 0x2c8e, 0x2c8f),
  (0x2c90, 0x2c90, 0x2c91), (0x2c92, 0x2c92, 0x2c93),
  (0x2c94, 0x2c94, 0x2c95), (0x2c96, 0x2c96, 0x2c97),
  (0x2c98, 0x2c98, 0x2c99)]

/-- Chunk 19 of the lowercase mapping table (see `lcChunk0`). -/
def lcChunk19 : List (Nat × Nat × Nat) := [
  (0x2c9a, 0x2c9a, 0x2c9b), (0x2c9c, 0x2c9c, 0x2c9d),
  (0x2c9e, 0x2c9e, 0x2c9f), (0x2ca0, 0x2ca0, 0x2ca1),
  (0x2ca2, 0x2ca2, 0x2ca3), (0x2ca4, 0x2ca4, 0x2ca5),
  (0x2ca6, 0x2ca6, 0x2ca7), (0x2ca8, 0x2ca8, 0x2ca9),
  (0x2caa, 0x2caa, 0x2cab), (0x2cac, 0x2cac, 0x2cad),
  (0x2cae, 0x2cae, 0x2caf), (0x2cb0, 0x2cb0, 0x2cb1),
  (0x2cb2, 0x2cb2, 0x2cb3), (0x2cb4, 0x2cb4, 0x2cb5),
  (0x2cb6, 0x2cb6, 0x2cb7), (0x2cb8, 0x2cb8, 0x2cb9),
  (0x2cba, 0x2cba, 0x2cbb), (0x2cbc, 0x2cbc, 0x2cbd),
  (0x2cbe, 0x2cbe, 0x2cbf), (0x2cc0, 0x2cc0, 0x2cc1),
  (0x2cc2, 0x2cc2, 0x2cc3), (0x2cc4, 0x2cc4, 0x2cc5),
  (0x2cc6, 0x2cc6, 0x2cc7), (0x2cc8, 0x2cc8, 0x2cc9),
  (0x2cca, 0x2cca, 0x2ccb), (0x2ccc, 0x2ccc, 0x2ccd)]

/-- Chunk 20 of the lowercase mapping table (see `lcChunk0`). -/
def lcChunk20 : List (Nat × Nat × Nat) := [
  (0x2cce, 0x2cce, 0x2ccf), (0x2cd0, 0x2cd0, 0x2cd1),
  (0x2cd2, 0x2cd2, 0x2cd3), (0x2cd4, 0x2cd4, 0x2cd5),
  (0x2cd6, 0x2cd6, 0x2cd7), (0x2cd8, 0x2cd8, 0x2cd9),
  (0x2cda, 0x2cda, 0x2cdb), (0x2cdc, 0x2cdc, 0x2cdd),
  (0x2cde, 0x2cde, 0x2cdf), (0x2ce0, 0x2ce0, 0x2ce1),
  (0x2ce2, 0x2ce2, 0x2ce3), (0x2ceb, 0x2ceb, 0x2cec),
  (0x2ced, 0x2ced, 0x2cee), (0x2cf2, 0x2cf2, 0x2cf3),
  (0xa640, 0xa640, 0xa641), (0xa642, 0xa642, 0xa643),
  (0xa644, 0xa644, 0xa645), (0xa646, 0xa646, 0xa647),
  (0xa648, 0xa648, 0xa649), (0xa64a, 0xa64a, 0xa64b),
  (0xa64c, 0xa64c, 0xa64d), (0xa64e, 0xa64e, 0xa64f),
  (0xa650, 0xa650, 0xa651), (0xa652, 0xa652, 0xa653),
  (0xa654, 0xa654, 0xa655), (0xa656, 0xa656, 0xa657)]

/-- Chunk 21 of the lowercase mapping table (see `lcChunk0`). -/
def lcChunk21 : List (Nat × Nat × Nat) := [
  (0xa658, 0xa658, 0xa659), (0xa65a, 0xa65a, 0xa65b),
  (0xa65c, 0xa65c, 0xa65d), (0xa65e, 0xa65e, 0xa65f),
  (0xa660, 0xa660, 0xa661), (0xa662, 0xa662, 0xa663),
  (0xa664, 0xa664, 0xa665), (0xa666, 0xa666, 0xa667),
  (0xa668, 0xa668, 0xa669), (0xa66a, 0xa66a, 0xa66b),
  (0xa66c, 0xa66c, 0xa66d), (0xa680, 0xa680, 0xa681),
  (0xa682, 0xa682, 0xa683), (0xa684, 0xa684, 0xa685),
  (0xa686, 0xa686, 0xa687), (0xa688, 0xa688, 0xa689),
  (0xa68a, 0xa68a, 0xa68b), (0xa68c, 0xa68c, 0xa68d),
  (0xa68e, 0xa68e, 0xa68f), (0xa690, 0xa690, 0xa691),
  (0xa692, 0xa692, 0xa693), (0xa694, 0xa694, 0xa695),
  (0xa696, 0xa696, 0xa697), (0xa698, 0xa698, 0xa699),
  (0xa69a, 0xa69a, 0xa69b), (0xa722, 0xa722, 0xa723)]

/-- Chunk 22 of the lowercase mapping table (see `lcChunk0`). -/
def lcChunk22 : List (Nat × Nat × Nat) := [
  (0xa724, 0xa724, 0xa725), (0xa726, 0xa726, 0xa727),
  (0xa728, 0xa728, 0xa729), (0xa72a, 0xa72a, 0xa72b),
  (0xa72c, 0xa72c, 0xa72d), (0xa72e, 0xa72e, 0xa72f),
  (0xa732, 0xa732, 0xa733), (0xa734, 0xa734, 0xa735),
  (0xa736, 0xa736, 0xa737), (0xa738, 0xa738, 0xa739),
  (0xa73a, 0xa73a, 0xa73b), (0xa73c, 0xa73c, 0xa73d),
  (0xa73e, 0xa73e, 0xa73f), (0xa740, 0xa740, 0xa741),
  (0xa742, 0xa742, 0xa743), (0xa744, 0xa744, 0xa745),
  (0xa746, 0xa746, 0xa747), (0xa748, 0xa748, 0xa749),
  (0xa74a, 0xa74a, 0xa74b), (0xa74c, 0xa74c, 0xa74d),
  (0xa74e, 0xa74e, 0xa74f), (0xa750, 0xa750, 0xa751),
  (0xa752, 0xa752, 0xa753), (0xa754, 0xa754, 0xa755),
  (0xa756, 0xa756, 0xa757), (0xa758, 0xa758, 0xa759)]

/-- Chunk 23 of the lowercase mapping table (see `lcChunk0`). -/
def lcChunk23 : List (Nat × Nat × Nat) := [
  (0xa75a, 0xa75a, 0xa75b), (0xa75c, 0xa75c, 0xa75d),
  (0xa75e, 0xa75e, 0xa75f), (0xa760, 0xa760, 0xa761),
  (0xa762, 0xa762, 0xa763), (0xa764, 0xa764, 0xa765),
  (0xa766, 0xa766, 0xa767), (0xa768, 0xa768, 0xa769),
  (0xa76a, 0xa76a, 0xa76b), (0xa76c, 0xa76c, 0xa76d),
  (0xa76e, 0xa76e, 0xa76f), (0xa779, 0xa779, 0xa77a),
  (0xa77b, 0xa77b, 0xa77c), (0xa77d, 0xa77d, 0x1d79),
  (0xa77e, 0xa77e, 0xa77f), (0xa780, 0xa780, 0xa781),
  (0xa782, 0xa782, 0xa783), (0xa784, 0xa784, 0xa785),
  (0xa786, 0xa786, 0xa787), (0xa78b, 0xa78b, 0xa78c),
  (0xa78d, 0xa78d, 0x265), (0xa790, 0xa790, 0xa791),
  (0xa792, 0xa792, 0xa793), (0xa796, 0xa796, 0xa797),
  (0xa798, 0xa798, 0xa799), (0xa79a, 0xa79a, 0xa79b)]

/-- Chunk 24 of the lowercase mapping table (see `lcChunk0`). -/
def lcChunk24 : List (Nat × Nat × Nat) := [
  (0xa79c, 0xa79c, 0xa79d), (0xa79e, 0xa79e, 0xa79f),
  (0xa7a0, 0xa7a0, 0xa7a1), (0xa7a2, 0xa7a2, 0xa7a3),
  (0xa7a4, 0xa7a4, 0xa7a5), (0xa7a6, 0xa7a6, 0xa7a7),
  (0xa7a8, 0xa7a8, 0xa7a9), (0xa7aa, 0xa7aa, 0x266), (0xa7ab, 0xa7ab, 0x25c),
  (0xa7ac, 0xa7ac, 0x261), (0xa7ad, 0xa7ad, 0x26c), (0xa7ae, 0xa7ae, 0x26a),
  (0xa7b0, 0xa7b0, 0x29e), (0xa7b1, 0xa7b1, 0x287), (0xa7b2, 0xa7b2, 0x29d),
  (0xa7b3, 0xa7b3, 0xab53), (0xa7b4, 0xa7b4, 0xa7b5),
  (0xa7b6, 0xa7b6, 0xa7b7), (0xa7b8, 0xa7b8, 0xa7b9),
  (0xa7ba, 0xa7ba, 0xa7bb), (0xa7bc, 0xa7bc, 0xa7bd),
  (0xa7be, 0xa7be, 0xa7bf), (0xa7c0, 0xa7c0, 0xa7c1),
  (0xa7c2, 0xa7c2, 0xa7c3), (0xa7c4, 0xa7c4, 0xa794), (0xa7c5, 0xa7c5, 0x282)]

/-- Chunk 25 of the lowercase mapping table (see `lcChunk0`). -/
def lcChunk25 : List (Nat × Nat × Nat) := [
  (0xa7c6, 0xa7c6, 0x1d8e), (0xa7c7, 0xa7c7, 0xa7c8),
  (0xa7c9, 0xa7c9, 0xa7ca), (0xa7d0, 0xa7d0, 0xa7d1),
  (0xa7d6, 0xa7d6, 0xa7d7), (0xa7d8, 0xa7d8, 0xa7d9),
  (0xa7f5, 0xa7f5, 0xa7f6), (0xff21, 0xff3a, 0xff41),
  (0x10400, 0x10427, 0x10428), (0x104b0, 0x104d3, 0x104d8),
  (0x10570, 0x1057a, 0x10597), (0x1057c, 0x1058a, 0x105a3),
  (0x1058c, 0x10592, 0x105b3), (0x10594, 0x10595, 0x105bb),
  (0x10c80, 0x10cb2, 0x10cc0), (0x118a0, 0x118bf, 0x118c0),
  (0x16e40, 0x16e5f, 0x16e60), (0x1e900, 0x1e921, 0x1e922)]

/-- The chunked lowercase mapping table: `(lo, hi, chunk)` with `lo`/`hi`
the first and last code point covered by `chunk` (see `lcTable_bounds` and
`lcTable_flat_sorted`). -/
def lcTable : List (Nat × Nat × List (Nat × Nat × Nat)) := [
  (0x41, 0x12c, lcChunk0), (0x12e, 0x162, lcChunk1),
  (0x164, 0x193, lcChunk2), (0x194, 0x1c8, lcChunk3),
  (0x1ca, 0x1fa, lcChunk4), (0x1fc, 0x22e, lcChunk5),
  (0x230, 0x3cf, lcChunk6), (0x3d8, 0x46c, lcChunk7),
  (0x46e, 0x4a8, lcChunk8), (0x4aa, 0x4dc, lcChunk9),
  (0x4de, 0x510, lcChunk10), (0x512, 0x1e04, lcChunk11),
  (0x1e06, 0x1e38, lcChunk12), (0x1e3a, 0x1e6c, lcChunk13),
  (0x1e6e, 0x1ea8, lcChunk14), (0x1eaa, 0x1edc, lcChunk15),
  (0x1ede, 0x1f5f, lcChunk16), (0x1f68, 0x2c60, lcChunk17),
  (0x2c62, 0x2c98, lcChunk18), (0x2c9a, 0x2ccc, lcChunk19),
  (0x2cce, 0xa656, lcChunk20), (0xa658, 0xa722, lcChunk21),
  (0xa724, 0xa758, lcChunk22), (0xa75a, 0xa79a, lcChunk23),
  (0xa79c, 0xa7c5, lcChunk24), (0xa7c6, 0x1e921, lcChunk25)]

/-- The code-point ranges of the Unicode `Cased` property
(`DerivedCoreProperties.txt`, UCD 14.0.0), in order; used only by the
final-sigma context test. -/
def casedRanges : List (Nat × Nat) := [
  (0x41, 0x5a), (0x61, 0x7a), (0xaa, 0xaa), (0xb5, 0xb5), (0xba, 0xba),
  (0xc0, 0xd6), (0xd8, 0xf6), (0xf8, 0x1ba), (0x1bc, 0x1bf), (0x1c4, 0x293),
  (0x295, 0x2b8), (0x2c0, 0x2c1), (0x2e0, 0x2e4), (0x345, 0x345),
  (0x370, 0x373), (0x376, 0x377), (0x37a, 0x37d), (0x37f, 0x37f),
  (0x386, 0x386), (0x388, 0x38a), (0x38c, 0x38c), (0x38e, 0x3a1),
  (0x3a3, 0x3f5), (0x3f7, 0x481), (0x48a, 0x52f), (0x531, 0x556),
  (0x560, 0x588), (0x10a0, 0x10c5), (0x10c7, 0x10c7), (0x10cd, 0x10cd),
  (0x10d0, 0x10fa), (0x10fd, 0x10ff), (0x13a0, 0x13f5), (0x13f8, 0x13fd),
  (0x1c80, 0x1c88), (0x1c90, 0x1cba), (0x1cbd, 0x1cbf), (0x1d00, 0x1dbf),
  (0x1e00, 0x1f15), (0x1f18, 0x1f1d), (0x1f20, 0x1f45), (0x1f48, 0x1f4d),
  (0x1f50, 0x1f57), (0x1f59, 0x1f59), (0x1f5b, 0x1f5b), (0x1f5d, 0x1f5d),
  (0x1f5f, 0x1f7d), (0x1f80, 0x1fb4), (0x1fb6, 0x1fbc), (0x1fbe, 0x1fbe),
  (0x1fc2, 0x1fc4), (0x1fc6, 0x1fcc), (0x1fd0, 0x1fd3), (0x1fd6, 0x1fdb),
  (0x1fe0, 0x1fec), (0x1ff2, 0x1ff4), (0x1ff6, 0x1ffc), (0x2071, 0x2071),
  (0x207f, 0x207f), (0x2090, 0x209c), (0x2102, 0x2102), (0x2107, 0x2107),
  (0x210a, 0x2113), (0x2115, 0x2115), (0x2119, 0x211d), (0x2124, 0x2124),
  (0x2126, 0x2126), (0x2128, 0x2128), (0x212a, 0x212d), (0x212f, 0x2134),
  (0x2139, 0x2139), (0x213c, 0x213f), (0x2145, 0x2149), (0x214e, 0x214e),
  (0x2160, 0x217f), (0x2183, 0x2184), (0x24b6, 0x24e9), (0x2c00, 0x2ce4),
  (0x2ceb, 0x2cee), (0x2cf2, 0x2cf3), (0x2d00, 0x2d25), (0x2d27, 0x2d27),
  (0x2d2d, 0x2d2d), (0xa640, 0xa66d), (0xa680, 0xa69d), (0xa722, 0xa787),
  (0xa78b, 0xa78e), (0xa790, 0xa7ca), (0xa7d0, 0xa7d1), (0xa7d3, 0xa7d3),
  (0xa7d5, 0xa7d9), (0xa7f5, 0xa7f6), (0xa7f8, 0xa7fa), (0xab30, 0xab5a),
  (0xab5c, 0xab68), (0xab70, 0xabbf), (0xfb00, 0xfb06), (0xfb13, 0xfb17),
  (0xff21, 0xff3a), (0xff41, 0xff5a), (0x10400, 0x1044f), (0x104b0, 0x104d3),
  (0x104d8, 0x104fb), (0x10570, 0x1057a), (0x1057c, 0x1058a),
  (0x1058c, 0x10592), (0x10594, 0x10595), (0x10597, 0x105a1),
  (0x105a3, 0x105b1), (0x105b3, 0x105b9), (0x105bb, 0x105bc),
  (0x10780, 0x10780), (0x10783, 0x10785), (0x10787, 0x107b0),
  (0x107b2, 0x107ba), (0x10c80, 0x10cb2), (0x10cc0, 0x10cf2),
  (0x118a0, 0x118df), (0x16e40, 0x16e7f), (0x1d400, 0x1d454),
  (0x1d456, 0x1d49c), (0x1d49e, 0x1d49f), (0x1d4a2, 0x1d4a2),
  (0x1d4a5, 0x1d4a6), (0x1d4a9, 0x1d4ac), (0x1d4ae, 0x1d4b9),
  (0x1d4bb, 0x1d4bb), (0x1d4bd, 0x1d4c3), (0x1d4c5, 0x1d505),
  (0x1d507, 0x1d50a), (0x1d50d, 0x1d514), (0x1d516, 0x1d51c),
  (0x1d51e, 0x1d539), (0x1d53b, 0x1d53e), (0x1d540, 0x1d544),
  (0x1d546, 0x1d546), (0x1d54a, 0x1d550), (0x1d552, 0x1d6a5),
  (0x1d6a8, 0x1d6c0), (0x1d6c2, 0x1d6da), (0x1d6dc, 0x1d6fa),
  (0x1d6fc, 0x1d714), (0x1d716, 0x1d734), (0x1d736, 0x1d74e),
  (0x1d750, 0x1d76e), (0x1d770, 0x1d788), (0x1d78a, 0x1d7a8),
  (0x1d7aa, 0x1d7c2), (0x1d7c4, 0x1d7cb), (0x1df00, 0x1df09),
  (0x1df0b, 0x1df1e), (0x1e900, 0x1e943), (0x1f130, 0x1f149),
  (0x1f150, 0x1f169), (0x1f170, 0x1f189)]

/-- The code-point ranges of the Unicode `Case_Ignorable` property
(`DerivedCoreProperties.txt`, UCD 14.0.0), in order; used only by the
final-sigma context test. -/
def ciRanges : List (Nat × Nat) := [
  (0x27, 0x27), (0x2e, 0x2e), (0x3a, 0x3a), (0x5e, 0x5e), (0x60, 0x60),
  (0xa8, 0xa8), (0xad, 0xad), (0xaf, 0xaf), (0xb4, 0xb4), (0xb7, 0xb8),
  (0x2b0, 0x36f), (0x374, 0x375), (0x37a, 0x37a), (0x384, 0x385),
  (0x387, 0x387), (0x483, 0x489), (0x559, 0x559), (0x55f, 0x55f),
  (0x591, 0x5bd), (0x5bf, 0x5bf), (0x5c1, 0x5c2), (0x5c4, 0x5c5),
  (0x5c7, 0x5c7), (0x5f4, 0x5f4), (0x600, 0x605), (0x610, 0x61a),
  (0x61c, 0x61c), (0x640, 0x640), (0x64b, 0x65f), (0x670, 0x670),
  (0x6d6, 0x6dd), (0x6df, 0x6e8), (0x6ea, 0x6ed), (0x70f, 0x70f),
  (0x711, 0x711), (0x730, 0x74a), (0x7a6, 0x7b0), (0x7eb, 0x7f5),
  (0x7fa, 0x7fa), (0x7fd, 0x7fd), (0x816, 0x82d), (0x859, 0x85b),
  (0x888, 0x888), (0x890, 0x891), (0x898, 0x89f), (0x8c9, 0x902),
  (0x93a, 0x93a), (0x93c, 0x93c), (0x941, 0x948), (0x94d, 0x94d),
  (0x951, 0x957), (0x962, 0x963), (0x971, 0x971), (0x981, 0x981),
  (0x9bc, 0x9bc), (0x9c1, 0x9c4), (0x9cd, 0x9cd), (0x9e2, 0x9e3),
  (0x9fe, 0x9fe), (0xa01, 0xa02), (0xa3c, 0xa3c), (0xa41, 0xa42),
  (0xa47, 0xa48), (0xa4b, 0xa4d), (0xa51, 0xa51), (0xa70, 0xa71),
  (0xa75, 0xa75), (0xa81, 0xa82), (0xabc, 0xabc), (0xac1, 0xac5),
  (0xac7, 0xac8), (0xacd, 0xacd), (0xae2, 0xae3), (0xafa, 0xaff),
  (0xb01, 0xb01), (0xb3c, 0xb3c), (0xb3f, 0xb3f), (0xb41, 0xb44),
  (0xb4d, 0xb4d), (0xb55, 0xb56), (0xb62, 0xb63), (0xb82, 0xb82),
  (0xbc0, 0xbc0), (0xbcd, 0xbcd), (0xc00, 0xc00), (0xc04, 0xc04),
  (0xc3c, 0xc3c), (0xc3e, 0xc40), (0xc46, 0xc48), (0xc4a, 0xc4d),
  (0xc55, 0xc56), (0xc62, 0xc63), (0xc81, 0xc81), (0xcbc, 0xcbc),
  (0xcbf, 0xcbf), (0xcc6, 0xcc6), (0xccc, 0xccd), (0xce2, 0xce3),
  (0xd00, 0xd01), (0xd3b, 0xd3c), (0xd41, 0xd44), (0xd4d, 0xd4d),
  (0xd62, 0xd63), (0xd81, 0xd81), (0xdca, 0xdca), (0xdd2, 0xdd4),
  (0xdd6, 0xdd6), (0xe31, 0xe31), (0xe34, 0xe3a), (0xe46, 0xe4e),
  (0xeb1, 0xeb1), (0xeb4, 0xebc), (0xec6, 0xec6), (0xec8, 0xecd),
  (0xf18, 0xf19), (0xf35, 0xf35), (0xf37, 0xf37), (0xf39, 0xf39),
  (0xf71, 0xf7e), (0xf80, 0xf84), (0xf86, 0xf87), (0xf8d, 0xf97),
  (0xf99, 0xfbc), (0xfc6, 0xfc6), (0x102d, 0x1030), (0x1032, 0x1037),
  (0x1039, 0x103a), (0x103d, 0x103e), (0x1058, 0x1059), (0x105e, 0x1060),
  (0x1071, 0x1074), (0x1082, 0x1082), (0x1085, 0x1086), (0x108d, 0x108d),
  (0x109d, 0x109d), (0x10fc, 0x10fc), (0x135d, 0x135f), (0x1712, 0x1714),
  (0x1732, 0x1733), (0x1752, 0x1753), (0x1772, 0x1773), (0x17b4, 0x17b5),
  (0x17b7, 0x17bd), (0x17c6, 0x17c6), (0x17c9, 0x17d3), (0x17d7, 0x17d7),
  (0x17dd, 0x17dd), (0x180b, 0x180f), (0x1843, 0x1843), (0x1885, 0x1886),
  (0x18a9, 0x18a9), (0x1920, 0x1922), (0x1927, 0x1928), (0x1932, 0x1932),
  (0x1939, 0x193b), (0x1a17, 0x1a18), (0x1a1b, 0x1a1b), (0x1a56, 0x1a56),
  (0x1a58, 0x1a5e), (0x1a60, 0x1a60), (0x1a62, 0x1a62), (0x1a65, 0x1a6c),
  (0x1a73, 0x1a7c), (0x1a7f, 0x1a7f), (0x1aa7, 0x1aa7), (0x1ab0, 0x1ace),
  (0x1b00, 0x1b03), (0x1b34, 0x1b34), (0x1b36, 0x1b3a), (0x1b3c, 0x1b3c),
  (0x1b42, 0x1b42), (0x1b6b, 0x1b73), (0x1b80, 0x1b81), (0x1ba2, 0x1ba5),
  (0x1ba8, 0x1ba9), (0x1bab, 0x1bad), (0x1be6, 0x1be6), (0x1be8, 0x1be9),
  (0x1bed, 0x1bed), (0x1bef, 0x1bf1), (0x1c2c, 0x1c33), (0x1c36, 0x1c37),
  (0x1c78, 0x1c7d), (0x1cd0, 0x1cd2), (0x1cd4, 0x1ce0), (0x1ce2, 0x1ce8),
  (0x1ced, 0x1ced), (0x1cf4, 0x1cf4), (0x1cf8, 0x1cf9), (0x1d2c, 0x1d6a),
  (0x1d78, 0x1d78), (0x1d9b, 0x1dff), (0x1fbd, 0x1fbd), (0x1fbf, 0x1fc1),
  (0x1fcd, 0x1fcf), (0x1fdd, 0x1fdf), (0x1fed, 0x1fef), (0x1ffd, 0x1ffe),
  (0x200b, 0x200f), (0x2018, 0x2019), (0x2024, 0x2024), (0x2027, 0x2027),
  (0x202a, 0x202e), (0x2060, 0x2064), (0x2066, 0x206f), (0x2071, 0x2071),
  (0x207f, 0x207f), (0x2090, 0x209c), (0x20d0, 0x20f0), (0x2c7c, 0x2c7d),
  (0x2cef, 0x2cf1), (0x2d6f, 0x2d6f), (0x2d7f, 0x2d7f), (0x2de0, 0x2dff),
  (0x2e2f, 0x2e2f), (0x3005, 0x3005), (0x302a, 0x302d), (0x3031, 0x3035),
  (0x303b, 0x303b), (0x3099, 0x309e), (0x30fc, 0x30fe), (0xa015, 0xa015),
  (0xa4f8, 0xa4fd), (0xa60c, 0xa60c), (0xa66f, 0xa672), (0xa674, 0xa67d),
  (0xa67f, 0xa67f), (0xa69c, 0xa69f), (0xa6f0, 0xa6f1), (0xa700, 0xa721),
  (0xa770, 0xa770), (0xa788, 0xa78a), (0xa7f2, 0xa7f4), (0xa7f8, 0xa7f9),
  (0xa802, 0xa802), (0xa806, 0xa806), (0xa80b, 0xa80b), (0xa825, 0xa826),
  (0xa82c, 0xa82c), (0xa8c4, 0xa8c5), (0xa8e0, 0xa8f1), (0xa8ff, 0xa8ff),
  (0xa926, 0xa92d), (0xa947, 0xa951), (0xa980, 0xa982), (0xa9b3, 0xa9b3),
  (0xa9b6, 0xa9b9), (0xa9bc, 0xa9bd), (0xa9cf, 0xa9cf), (0xa9e5, 0xa9e6),
  (0xaa29, 0xaa2e), (0xaa31, 0xaa32), (0xaa35, 0xaa36), (0xaa43, 0xaa43),
  (0xaa4c, 0xaa4c), (0xaa70, 0xaa70), (0xaa7c, 0xaa7c), (0xaab0, 0xaab0),
  (0xaab2, 0xaab4), (0xaab7, 0xaab8), (0xaabe, 0xaabf), (0xaac1, 0xaac1),
  (0xaadd, 0xaadd), (0xaaec, 0xaaed), (0xaaf3, 0xaaf4), (0xaaf6, 0xaaf6),
  (0xab5b, 0xab5f), (0xab69, 0xab6b), (0xabe5, 0xabe5), (0xabe8, 0xabe8),
  (0xabed, 0xabed), (0xfb1e, 0xfb1e), (0xfbb2, 0xfbc2), (0xfe00, 0xfe0f),
  (0xfe13, 0xfe13), (0xfe20, 0xfe2f), (0xfe52, 0xfe52), (0xfe55, 0xfe55),
  (0xfeff, 0xfeff), (0xff07, 0xff07), (0xff0e, 0xff0e), (0xff1a, 0xff1a),
  (0xff3e, 0xff3e), (0xff40, 0xff40), (0xff70, 0xff70), (0xff9e, 0xff9f),
  (0xffe3, 0xffe3), (0xfff9, 0xfffb), (0x101fd, 0x101fd), (0x102e0, 0x102e0),
  (0x10376, 0x1037a), (0x10780, 0x10785), (0x10787, 0x107b0),
  (0x107b2, 0x107ba), (0x10a01, 0x10a03), (0x10a05, 0x10a06),
  (0x10a0c, 0x10a0f), (0x10a38, 0x10a3a), (0x10a3f, 0x10a3f),
  (0x10ae5, 0x10ae6), (0x10d24, 0x10d27), (0x10eab, 0x10eac),
  (0x10f46, 0x10f50), (0x10f82, 0x10f85), (0x11001, 0x11001),
  (0x11038, 0x11046), (0x11070, 0x11070), (0x11073, 0x11074),
  (0x1107f, 0x11081), (0x110b3, 0x110b6), (0x110b9, 0x110ba),
  (0x110bd, 0x110bd), (0x110c2, 0x110c2), (0x110cd, 0x110cd),
  (0x11100, 0x11102), (0x11127, 0x1112b), (0x1112d, 0x11134),
  (0x11173, 0x11173), (0x11180, 0x11181), (0x111b6, 0x111be),
  (0x111c9, 0x111cc), (0x111cf, 0x111cf), (0x1122f, 0x11231),
  (0x11234, 0x11234), (0x11236, 0x11237), (0x1123e, 0x1123e),
  (0x112df, 0x112df), (0x112e3, 0x112ea), (0x11300, 0x11301),
  (0x1133b, 0x1133c), (0x11340, 0x11340), (0x11366, 0x1136c),
  (0x11370, 0x11374), (0x11438, 0x1143f), (0x11442, 0x11444),
  (0x11446, 0x11446), (0x1145e, 0x1145e), (0x114b3, 0x114b8),
  (0x114ba, 0x114ba), (0x114bf, 0x114c0), (0x114c2, 0x114c3),
  (0x115b2, 0x115b5), (0x115bc, 0x115bd), (0x115bf, 0x115c0),
  (0x115dc, 0x115dd), (0x11633, 0x1163a), (0x1163d, 0x1163d),
  (0x1163f, 0x11640), (0x116ab, 0x116ab), (0x116ad, 0x116ad),
  (0x116b0, 0x116b5), (0x116b7, 0x116b7), (0x1171d, 0x1171f),
  (0x11722, 0x11725), (0x11727, 0x1172b), (0x1182f, 0x11837),
  (0x11839, 0x1183a), (0x1193b, 0x1193c), (0x1193e, 0x1193e),
  (0x11943, 0x11943), (0x119d4, 0x119d7), (0x119da, 0x119db),
  (0x119e0, 0x119e0), (0x11a01, 0x11a0a), (0x11a33, 0x11a38),
  (0x11a3b, 0x11a3e), (0x11a47, 0x11a47), (0x11a51, 0x11a56),
  (0x11a59, 0x11a5b), (0x11a8a, 0x11a96), (0x11a98, 0x11a99),
  (0x11c30, 0x11c36), (0x11c38, 0x11c3d), (0x11c3f, 0x11c3f),
  (0x11c92, 0x11ca7), (0x11caa, 0x11cb0), (0x11cb2, 0x11cb3),
  (0x11cb5, 0x11cb6), (0x11d31, 0x11d36), (0x11d3a, 0x11d3a),
  (0x11d3c, 0x11d3d), (0x11d3f, 0x11d45), (0x11d47, 0x11d47),
  (0x11d90, 0x11d91), (0x11d95, 0x11d95), (0x11d97, 0x11d97),
  (0x11ef3, 0x11ef4), (0x13430, 0x13438), (0x16af0, 0x16af4),
  (0x16b30, 0x16b36), (0x16b40, 0x16b43), (0x16f4f, 0x16f4f),
  (0x16f8f, 0x16f9f), (0x16fe0, 0x16fe1), (0x16fe3, 0x16fe4),
  (0x1aff0, 0x1aff3), (0x1aff5, 0x1affb), (0x1affd, 0x1affe),
  (0x1bc9d, 0x1bc9e), (0x1bca0, 0x1bca3), (0x1cf00, 0x1cf2d),
  (0x1cf30, 0x1cf46), (0x1d167, 0x1d169), (0x1d173, 0x1d182),
  (0x1d185, 0x1d18b), (0x1d1aa, 0x1d1ad), (0x1d242, 0x1d244),
  (0x1da00, 0x1da36), (0x1da3b, 0x1da6c), (0x1da75, 0x1da75),
  (0x1da84, 0x1da84), (0x1da9b, 0x1da9f), (0x1daa1, 0x1daaf),
  (0x1e000, 0x1e006), (0x1e008, 0x1e018), (0x1e01b, 0x1e021),
  (0x1e023, 0x1e024), (0x1e026, 0x1e02a), (0x1e130, 0x1e13d),
  (0x1e2ae, 0x1e2ae), (0x1e2ec, 0x1e2ef), (0x1e8d0, 0x1e8d6),
  (0x1e944, 0x1e94b), (0x1f3fb, 0x1f3ff), (0xe0001, 0xe0001),
  (0xe0020, 0xe007f), (0xe0100, 0xe01ef)]

/-- Interval lookup in one chunk of the lowercase table, exploiting the
code-point order of the triples: `n` in `[first, last]` maps to
`lowerOfFirst + (n - first)`. -/
def lookupLcRanges : List (Nat × Nat × Nat) → Nat → Option Nat
  | [], _ => none
  | (a, b, m) :: rest, n =>
    if n < a then none
    else if n ≤ b then some (m + (n - a))
    else lookupLcRanges rest n

/-- Interval lookup in the chunked lowercase table: find the chunk whose
`[lo, hi]` span covers `n`, then look inside it. -/
def lookupLc : List (Nat × Nat × List (Nat × Nat × Nat)) → Nat → Option Nat
  | [], _ => none
  | (lo, hi, rs) :: rest, n =>
    if n < lo then none
    else if n ≤ hi then lookupLcRanges rs n
    else lookupLc rest n

/-- Membership of a code point in an ordered list of closed ranges. -/
def inRanges : List (Nat × Nat) → Nat → Bool
  | [], _ => false
  | (a, b) :: rest, n =>
    if n < a then false
    else if n ≤ b then true
    else inRanges rest n

/-- The unconditional lowercase mapping of one code point: U+0130 expands to
U+0069 U+0307 (the only one-to-many lowercase mapping in the UCD), every
other code point maps through the table, or to itself when unmapped. -/
def lowerChar (c : Char) : List Char :=
  if c = 'İ' then [Char.ofNat 0x69, Char.ofNat 0x307]
  else
    match lookupLc lcTable c.toNat with
    | some m => [Char.ofNat m]
    | none => [c]

/-- The Unicode `Cased` property. -/
def isCased (c : Char) : Bool :=
  inRanges casedRanges c.toNat

/-- The Unicode `Case_Ignorable` property. -/
def isCaseIgnorable (c : Char) : Bool :=
  inRanges ciRanges c.toNat

/-- First half of the `Final_Sigma` context of `SpecialCasing.txt`: the
character is preceded by a cased character, skipping case-ignorable ones
(`prevRev` is the preceding text, nearest character first). -/
def precededByCased (prevRev : List Char) : Bool :=
  match prevRev.dropWhile isCaseIgnorable with
  | d :: _ => isCased d
  | [] => false

/-- Second half of the `Final_Sigma` context: the character is followed by a
cased character, skipping case-ignorable ones. -/
def followedByCased (rest : List Char) : Bool :=
  match rest.dropWhile isCaseIgnorable with
  | d :: _ => isCased d
  | [] => false

/-- `String.prototype.toLowerCase`, character by character: a capital sigma
in `Final_Sigma` context lowercases to the final form U+03C2 `ς`; every
other character takes its unconditional mapping.  `prevRev` accumulates the
characters already consumed, nearest first. -/
def jsLowerAux (prevRev : List Char) : List Char → List Char
  | [] => []
  | c :: rest =>
    (if c == 'Σ' && precededByCased prevRev && !followedByCased rest
     then ['ς'] else lowerChar c) ++ jsLowerAux (c :: prevRev) rest

/-- `String.prototype.toLowerCase` on a whole string. -/
def jsLowerStr (s : List Char) : List Char :=
  jsLowerAux [] s

/-- Well-formedness check of one chunk: triples ordered, ranges nonempty
and disjoint (see `lcChunks_sorted`). -/
def rangesSorted : List (Nat × Nat × Nat) → Bool
  | [] => true
  | [r] => decide (r.1 ≤ r.2.1)
  | r :: s :: rest =>
    decide (r.1 ≤ r.2.1) && decide (r.2.1 < s.1) && rangesSorted (s :: rest)

/-- Well-formedness check of the chunk sequence: chunk spans ordered and
disjoint (see `lcBuckets_sorted`). -/
def bucketsSorted : List (Nat × Nat × List (Nat × Nat × Nat)) → Bool
  | [] => true
  | [_] => true
  | b :: c :: rest => decide (b.2.1 < c.1) && bucketsSorted (c :: rest)

/-- A character the lowercase conversion leaves alone in every context: its
unconditional mapping is itself and it is not a capital sigma (whose mapping
is context-dependent). -/
def lcFixed (c : Char) : Prop :=
  lowerChar c = [c] ∧ c ≠ 'Σ'

/-- `String.prototype.trim`: drop whitespace from both ends. -/
def trimStr (l : List Char) : List Char :=
  ((l.dropWhile isJsSpace).reverse.dropWhile isJsSpace).reverse

/-- Scan step of `replace(/\s+/g, ' ')`: `prevWs` records whether the scan
is inside a whitespace run whose single replacement space has already been
emitted. -/
def collapseWsAux (prevWs : Bool) : List Char → List Char
  | [] => []
  | c :: rest =>
    if isJsSpace c then
      if prevWs then collapseWsAux true rest
      else ' ' :: collapseWsAux true rest
    else c :: collapseWsAux false rest

/-- `replace(/\s+/g, ' ')`: every maximal run of whitespace becomes one
space. -/
def collapseWs (l : List Char) : List Char :=
  collapseWsAux false l

/-- `normalizeTitle(title)` from `src/cache.mjs`:
`title.toLowerCase().trim().replace(/\s+/g, ' ')`. -/
def normalizeTitle (t : List Char) : List Char :=
  collapseWs (trimStr (jsLowerStr t))

/-- Whether a string starts with a whitespace character. -/
def headWs (l : List Char) : Bool :=
  match l.head? with
  | some c => isJsSpace c
  | none => false

/-- Whether a string ends with a whitespace character. -/
def lastWs (l : List Char) : Bool :=
  headWs l.reverse

/-! ## Cache backends

`cacheGet`/`cacheSet`/`cacheSetNegative` write either to Vercel KV (prefixed
keys in one remote keyspace) or to a local JSON file (one JS object keyed by
the normalized title).  The KV keyspace is a map from full key strings to
values; the JSON object is an association list in property insertion order. -/

/-- A KV keyspace (`@vercel/kv`): full key string to stored value. -/
abbrev KVStore : Type := List Char → Option CacheEntry

/-- `kv.set(key, value)`. -/
def kvSet (m : KVStore) (k : List Char) (v : CacheEntry) : KVStore :=
  fun x => if x = k then some v else m x

/-- `cacheSet` on the KV backend (`src/cache.mjs` lines 144-152): stamps
`cachedAt` and writes under `` `paper:${normalizedKey}` ``. -/
def cacheSetKV (m : KVStore) (key : List Char) (v : CacheEntry) (now : Int) :
    KVStore :=
  kvSet m ("paper:".data ++ normalizeTitle key) { v with cachedAt := some now }

/-- `cacheSetNegative` on the KV backend (`src/cache.mjs` lines 257-267):
forces `success: false` and `isNegativeCache: true`, stamps `cachedAt`, and
writes under `` `negative:${normalizedKey}` ``. -/
def cacheSetNegativeKV (m : KVStore) (key : List Char) (v : CacheEntry)
    (now : Int) : KVStore :=
  kvSet m ("negative:".data ++ normalizeTitle key)
    { v with success := some false, cachedAt := some now,
             isNegativeCache := true }

/-- The JSON-file cache: one JS object, modelled as an association list in
property insertion order. -/
abbrev JsonCache : Type := List (List Char × CacheEntry)

/-- JS object property write `cache[key] = v`: updates in place if the key
exists, else appends (objects preserve insertion order). -/
def objSet (o : JsonCache) (k : List Char) (v : CacheEntry) : JsonCache :=
  if (o.lookup k).isSome then
    o.map (fun p => if p.1 = k then (k, v) else p)
  else o ++ [(k, v)]

/-- Timestamp comparison key used by `evictLRU`: `cachedAt` as epoch ms,
missing timestamps sort as 0. -/
def evictTime (e : CacheEntry) : Int :=
  match e.cachedAt with
  | some t => t
  | none => 0

/-- Stable insertion step of an ascending sort by a strict comparator: `x` is
placed after every earlier element that compares strictly below it, and before
equal ones.  Models the (stable) `Array.prototype.sort` of the source. -/
def insertStable (lt : α → α → Bool) (x : α) : List α → List α
  | [] => [x]
  | y :: ys => if lt y x then y :: insertStable lt x ys else x :: y :: ys

/-- Stable ascending sort by a strict comparator, as a fold of
`insertStable`. -/
def sortStable (lt : α → α → Bool) (l : List α) : List α :=
  l.foldr (insertStable lt) []

/-- `evictLRU(cache, count)` from `src/cache.mjs` (lines 222-239): sort the
entries by `cachedAt` (oldest first) and delete the first `count` keys. -/
def evictLRU (cache : JsonCache) (count : Nat) : JsonCache :=
  let sorted := sortStable (fun a b => decide (evictTime a.2 < evictTime b.2)) cache
  let toDelete := (sorted.take count).map (·.1)
  cache.filter (fun p => !toDelete.contains p.1)

/-- `cacheSet` on the JSON-file backend (`src/cache.mjs` lines 154-176):
stamp `cachedAt`, evict 10% (1000 of 10000) when at capacity, then write at
the normalized key — no prefix. -/
def jsonCacheSet (cache : JsonCache) (key : List Char) (v : CacheEntry)
    (now : Int) : JsonCache :=
  let cache' := if CACHE_CONFIG.maxEntries ≤ cache.length then
                  evictLRU cache 1000
                else cache
  objSet cache' (normalizeTitle key) { v with cachedAt := some now }

/-- `cacheSetNegative` on the JSON-file backend (`src/cache.mjs` lines
269-270): "JSON file negative caching is handled by normal cacheSet with
success: false" — the flagged value is stored by `cacheSet` at the same,
unprefixed key a positive entry would use. -/
def jsonCacheSetNegative (cache : JsonCache) (key : List Char) (v : CacheEntry)
    (now : Int) : JsonCache :=
  jsonCacheSet cache key
    { v with success := some false, cachedAt := some now,
             isNegativeCache := true } now

/-! ## Circuit breaker (`src/circuitBreaker.mjs`) -/

/-- Breaker states (`STATES` in `src/circuitBreaker.mjs`). -/
inductive CBState
  | closed
  | openState
  | halfOpen
deriving DecidableEq

/-- One `CircuitBreaker` instance.  `timeoutCfg` is the mutable
`this.config.timeout` (the rate-limit path reassigns it); the thresholds and
`resetTimeout` are the remaining config fields. -/
structure Breaker where
  state : CBState
  failures : Nat
  successes : Nat
  lastFailureTime : Option Int
  lastStateChange : Int
  timeoutCfg : Int
  failureThreshold : Nat
  successThreshold : Nat
  resetTimeout : Int
deriving DecidableEq

/-- A freshly constructed breaker with `DEFAULT_CONFIG`
(failureThreshold 5, successThreshold 2, timeout 60000 ms,
resetTimeout 300000 ms). -/
def newBreaker (now : Int) : Breaker :=
  { state := .closed, failures := 0, successes := 0, lastFailureTime := none
    lastStateChange := now, timeoutCfg := 60000, failureThreshold := 5
    successThreshold := 2, resetTimeout := 300000 }

/-- `transitionTo(newState)`: change state and stamp `lastStateChange`, a
no-op when already in that state. -/
def transitionTo (b : Breaker) (s : CBState) (now : Int) : Breaker :=
  if b.state = s then b else { b with state := s, lastStateChange := now }

/-- `updateState()`: lazily evaluate timed transitions — `open → halfOpen`
after `timeout`, and in `closed` forget the failure count after
`resetTimeout` since the last failure. -/
def updateState (b : Breaker) (now : Int) : Breaker :=
  match b.state with
  | .openState =>
    if b.timeoutCfg ≤ now - b.lastStateChange then transitionTo b .halfOpen now
    else b
  | .closed =>
    match b.lastFailureTime with
    | some t =>
      if b.resetTimeout ≤ now - t then
        { b with failures := 0, lastFailureTime := none }
      else b
    | none => b
  | .halfOpen => b

/-- The classified-error view `recordFailure` looks at: `some r` when
`error.classifiedError instanceof RateLimitError` with `retryAfter` field `r`
(in seconds), `none` for every other failure. -/
abbrev RateLimitView : Type := Option Int

/-- `recordFailure(error)` (`src/circuitBreaker.mjs` lines 97-127): stamp the
failure time, run `updateState`, then — rate-limited failures open the circuit
at once and raise `config.timeout` to at least `retryAfter` seconds (the
`retryAfter || 60` default applies when the field is 0); otherwise a half-open
failure reopens, and a closed failure counts toward `failureThreshold`. -/
def recordFailure (b : Breaker) (rl : RateLimitView) (now : Int) : Breaker :=
  let b1 := updateState { b with lastFailureTime := some now } now
  match rl with
  | some ra =>
    let retryAfter := if ra = 0 then 60 else ra
    let b2 := transitionTo b1 .openState now
    { b2 with timeoutCfg := max b2.timeoutCfg (retryAfter * 1000) }
  | none =>
    match b1.state with
    | .halfOpen => { transitionTo b1 .openState now with successes := 0 }
    | .closed =>
      let b2 := { b1 with failures := b1.failures + 1 }
      if b2.failureThreshold ≤ b2.failures then transitionTo b2 .openState now
      else b2
    | .openState => b1

/-- `recordSuccess()` (`src/circuitBreaker.mjs` lines 75-91): in half-open,
count successes and close at `successThreshold`; in closed, decrement the
failure count (floored at 0 by `Math.max`). -/
def recordSuccess (b : Breaker) (now : Int) : Breaker :=
  let b1 := updateState b now
  match b1.state with
  | .halfOpen =>
    let b2 := { b1 with successes := b1.successes + 1 }
    if b2.successThreshold ≤ b2.successes then
      { transitionTo b2 .closed now with failures := 0, successes := 0 }
    else b2
  | .closed => { b1 with failures := b1.failures - 1 }
  | .openState => b1

/-- `isAllowed()`: run the lazy state update, then allow unless open.
Returns the answer together with the updated breaker. -/
def isAllowed (b : Breaker) (now : Int) : Bool × Breaker :=
  let b1 := updateState b now
  (decide (b1.state ≠ .openState), b1)

/-! ## Dispatcher task pipeline (`src/paperFetcher.mjs` lines 220-237,
`withCircuitBreaker` in `src/circuitBreaker.mjs` lines 204-222, and
`withRateLimit` in `src/rateLimiter.mjs` lines 657-672)

Each provider task is modelled by the trace of engine-level events it
performs, so that the composition of the wrappers around the raw provider
call is visible. -/

/-- Engine-level events a provider task can perform. -/
inductive FetchEv
  | breakerCheck
  | tokenAcquire
  | providerCall
  | recordSuccessEv
  | recordFailureEv
deriving DecidableEq

/-- What the raw provider call (`strategy.fn()`) does when it runs: fulfil
with a result, or throw. -/
inductive CallBehavior
  | ok (payload : Nat)
  | thrown (msg : List Char)
deriving DecidableEq

/-- How a task settles for the aggregator: `{name, result}` on every path
(errors are caught and converted, lines 228-236 of `src/paperFetcher.mjs`). -/
structure TaskOutcome where
  succeeded : Bool
  payload : Option Nat
  errMsg : Option (List Char)
deriving DecidableEq

/-- `withCircuitBreaker(sourceName, fn)`: check `isAllowed` (one breaker
check event); if open, throw the synthetic circuit-open error without calling
the provider; otherwise call it and record the outcome on the breaker.
Returns the trace and either the payload or the thrown error
(`none` encodes the circuit-open error). -/
def withCircuitBreakerRun (allowed : Bool) (call : CallBehavior) :
    List FetchEv × Except (Option (List Char)) Nat :=
  if allowed then
    match call with
    | .ok v => ([.breakerCheck, .providerCall, .recordSuccessEv], .ok v)
    | .thrown m => ([.breakerCheck, .providerCall, .recordFailureEv], .error (some m))
  else ([.breakerCheck], .error none)

/-- One dispatcher task (`src/paperFetcher.mjs` lines 220-237): run the
provider through `withCircuitBreaker` and catch everything — a circuit-open
throw becomes `{success: false, error: 'Circuit breaker open'}`, any other
throw becomes `{success: false, error: error.message}`. -/
def dispatchTask (allowed : Bool) (call : CallBehavior) :
    List FetchEv × TaskOutcome :=
  match withCircuitBreakerRun allowed call with
  | (evs, .ok v) =>
    (evs, { succeeded := true, payload := some v, errMsg := none })
  | (evs, .error none) =>
    (evs, { succeeded := false, payload := none
            errMsg := some "Circuit breaker open".data })
  | (evs, .error (some m)) =>
    (evs, { succeeded := false, payload := none, errMsg := some m })

/-- `withRateLimit(sourceName, fn)` (`src/rateLimiter.mjs`): acquire a token
from the source's bucket, then run `fn`.  Defined from the source to give
`tokenAcquire` its meaning; nothing in `fetchPaperInternal` calls it. -/
def withRateLimitRun (inner : List FetchEv × β) : List FetchEv × β :=
  (.tokenAcquire :: inner.1, inner.2)

/-! ## Error classifier (`src/errors.mjs`) and retry executor
(`withRetry` in `src/fetchers/baseFetcher.mjs`) -/

/-- A `Retry-After` header as the classifier sees it: an integer number of
seconds, an HTTP date, or an unparseable string. -/
inductive RetryAfterHdr
  | seconds (n : Int)
  | httpDate (t : Int)
  | malformed
deriving DecidableEq

/-- A raw error thrown by a provider call: optional HTTP status, optional
Node error code (ECONNABORTED and friends), optional `Retry-After` header,
and the message. -/
structure RawError where
  status : Option Nat
  code : Option (List Char)
  retryAfterHeader : Option RetryAfterHdr
  message : List Char
deriving DecidableEq

/-- The error taxonomy of `src/errors.mjs`. -/
inductive ErrKind
  | transient
  | permanent
  | rateLimited
deriving DecidableEq

/-- A classified error: its kind and, for rate limits, the `retryAfter`
seconds carried by the `RateLimitError`. -/
structure ClassifiedErr where
  kind : ErrKind
  retryAfter : Option Int
deriving DecidableEq

/-- Header parsing in `classifyError` (`src/errors.mjs` lines 79-91):
integer seconds pass through; an HTTP date becomes
`Math.max(0, Math.ceil((date - now) / 1000))`; otherwise no value. -/
def parseRetryAfterHdr (h : Option RetryAfterHdr) (now : Int) : Option Int :=
  match h with
  | none => none
  | some (.seconds n) => some n
  | some (.httpDate t) => some (max 0 ((t - now + 999).fdiv 1000))
  | some .malformed => none

/-- Optional status comparison, false when there is no response status. -/
def statusInRange (st : Option Nat) (lo hi : Nat) : Bool :=
  match st with
  | some s => decide (lo ≤ s) && decide (s < hi)
  | none => false

/-- Optional status lower bound, false when there is no response status. -/
def statusGE (st : Option Nat) (lo : Nat) : Bool :=
  match st with
  | some s => decide (lo ≤ s)
  | none => false

/-- `classifyError(error, source)` (`src/errors.mjs` lines 74-138): 429 is
`RateLimited` (the `RateLimitError` constructor replaces a missing or zero
`retryAfter` by 60); other 4xx are `Permanent`; 5xx, timeouts, network
errors, and anything unclassifiable are `Transient`. -/
def classifyError (e : RawError) (now : Int) : ClassifiedErr :=
  let retryAfter := parseRetryAfterHdr e.retryAfterHeader now
  if e.status = some 429 then
    { kind := .rateLimited
      retryAfter := some (match retryAfter with
        | some r => if r = 0 then 60 else r
        | none => 60) }
  else if statusInRange e.status 400 500 then
    { kind := .permanent, retryAfter := none }
  else if statusGE e.status 500 then
    { kind := .transient, retryAfter := none }
  else
    { kind := .transient, retryAfter := none }

/-- `isRetryable(error)` (`src/errors.mjs` lines 145-155) on a classified
error: only `Permanent` is not retryable. -/
def isRetryable (c : ClassifiedErr) : Bool :=
  decide (c.kind ≠ .permanent)

/-- Exponential backoff with jitter (`src/errors.mjs` line 172):
`min(baseDelay * 2^attempt * jitter, 30000)` with
`jitter = 0.5 + Math.random()`. `rand` is the `Math.random()` draw. -/
def backoffDelay (baseDelay : ℚ) (attempt : Nat) (rand : ℚ) : ℚ :=
  min (baseDelay * 2 ^ attempt * (1 / 2 + rand)) 30000

/-- `getRetryDelay(error, attempt, baseDelay)` (`src/errors.mjs` lines
164-173): a `RateLimitError` with a truthy `retryAfter` waits exactly
`retryAfter * 1000` ms; everything else uses the jittered backoff. -/
def getRetryDelay (c : ClassifiedErr) (attempt : Nat) (baseDelay : ℚ)
    (rand : ℚ) : ℚ :=
  match c.kind, c.retryAfter with
  | .rateLimited, some ra =>
    if ra = 0 then backoffDelay baseDelay attempt rand else (ra : ℚ) * 1000
  | _, _ => backoffDelay baseDelay attempt rand

/-- Result of `withRetry`: the value, or the last raw error with its
classification attached (`lastError.classifiedError = classifiedError`,
line 103 of `src/fetchers/baseFetcher.mjs`). -/
inductive RetryOutcome (α : Type)
  | ok (v : α)
  | failed (e : RawError) (c : ClassifiedErr)
deriving DecidableEq

/-- The attempt loop of `withRetry(fetchFn, options)`
(`src/fetchers/baseFetcher.mjs` lines 75-105), from attempt number
`attempt` on.  `fetch k` is what the wrapped call does on its `k`-th
invocation; `rand k` is the `Math.random()` draw of that attempt's backoff.
Returns the outcome and the list of delays slept between attempts:
a non-retryable classification breaks out at once; a retryable one retries
after `getRetryDelay` while attempts remain (`BASE_DELAY` 1000 ms). -/
def withRetryAux (fetch : Nat → Except RawError α) (retries : Nat)
    (rand : Nat → ℚ) (now : Int) (attempt : Nat) : RetryOutcome α × List ℚ :=
  match fetch attempt with
  | .ok v => (.ok v, [])
  | .error e =>
    let c := classifyError e now
    if !isRetryable c then (.failed e c, [])
    else if attempt < retries then
      let d := getRetryDelay c attempt 1000 (rand attempt)
      let r := withRetryAux fetch retries rand now (attempt + 1)
      (r.1, d :: r.2)
    else (.failed e c, [])
termination_by retries - attempt
decreasing_by omega

/-- `withRetry` with `MAX_RETRIES = 2` as default caller-visible entry:
starts the loop at attempt 0. -/
def withRetry (fetch : Nat → Except RawError α) (retries : Nat)
    (rand : Nat → ℚ) (now : Int) : RetryOutcome α × List ℚ :=
  withRetryAux fetch retries rand now 0

/-! ## Concurrency-limited dispatcher
(`runWithConcurrencyLimit` in `src/paperFetcher.mjs` lines 90-108)

Each task is identified with the settled outcome its promise eventually
produces.  The loop pushes every promise into `results` in task order,
keeps an `executing` set, and when the set reaches the limit awaits
`Promise.race` — some nonempty group of in-flight promises settles and their
cleanups remove them.  The scheduler `sched` chooses which in-flight
promises settle at the `step`-th race; if it names none of them, the oldest
settles (a race always settles at least one).  The return value is
`Promise.allSettled(results)`: the outcomes in push order. -/

def dispatchLoop (pending : List (Nat × α)) (executing : List Nat)
    (results : List α) (limit : Nat) (sched : Nat → List Nat) (step : Nat) :
    List α :=
  match pending with
  | [] => results
  | (i, a) :: rest =>
    let results' := results ++ [a]
    let executing' := executing ++ [i]
    if limit ≤ executing'.length then
      let chosen := executing'.filter (fun j => (sched step).contains j)
      let executing'' :=
        if chosen.isEmpty then executing'.drop 1
        else executing'.filter (fun j => !(sched step).contains j)
      dispatchLoop rest executing'' results' limit sched (step + 1)
    else dispatchLoop rest executing' results' limit sched (step + 1)

/-- `runWithConcurrencyLimit(tasks, limit)` under scheduler `sched`. -/
def runWithConcurrencyLimit (tasks : List α) (limit : Nat)
    (sched : Nat → List Nat) : List α :=
  dispatchLoop tasks.enum [] [] limit sched 0

/-! ## Result aggregator (`fetchPaperInternal`, `src/paperFetcher.mjs`
lines 242-360)

The aggregator consumes the settled outcomes of the dispatched tasks in task
order, partitions them, selects the best `Found` result by source priority,
or falls back to one Unpaywall DOI lookup, or builds the failure result.
`downloadLocal` is false (the optional local-download side effect is outside
the engine). -/

/-- A provider result object (the fetcher contract of section 6): `pdf_url`,
`source`, `doi` and `error` are strings that may be absent; `metadata` is an
opaque object. -/
structure FetchRes where
  success : Bool
  pdf_url : Option (List Char)
  source : Option (List Char)
  doi : Option (List Char)
  metadata : Option Nat
  error : Option (List Char)
deriving DecidableEq

/-- JS truthiness of an optional string: present and nonempty. -/
def strTruthy : Option (List Char) → Bool
  | some (_ :: _) => true
  | _ => false

/-- The `{name, result}` pair a dispatcher task fulfils with. -/
structure NamedRes where
  name : List Char
  result : FetchRes
deriving DecidableEq

/-- One element of `Promise.allSettled`: fulfilled with a task value, or
rejected with an optional reason message. -/
inductive SettledRes
  | fulfilled (v : NamedRes)
  | rejected (reasonMsg : Option (List Char))
deriving DecidableEq

/-- `SOURCE_PRIORITY` from `src/paperFetcher.mjs` lines 67-76. -/
def SOURCE_PRIORITY : List (List Char × Nat) :=
  [("arXiv".data, 1), ("Semantic Scholar".data, 2), ("OpenAlex".data, 3),
   ("PubMed Central".data, 4), ("CORE".data, 5), ("Crossref".data, 6),
   ("Web Search".data, 7), ("Unpaywall".data, 8)]

/-- `SOURCE_PRIORITY[name] || 99`: unknown sources rank 99. -/
def priorityOf (name : List Char) : Nat :=
  match SOURCE_PRIORITY.lookup name with
  | some p => p
  | none => 99

/-- The four accumulators of the result-processing loop
(`src/paperFetcher.mjs` lines 243-269), each in encounter order. -/
structure Collected where
  successfulResults : List NamedRes
  collectedDois : List (List Char)
  collectedMetadata : List (List Char × Nat)
  errors : List (List Char)
deriving DecidableEq

/-- Value of an optional string, defaulting to the empty string. -/
def optStr (o : Option (List Char)) : List Char :=
  match o with
  | some s => s
  | none => []

/-- The result-processing loop: fulfilled outcomes with a truthy `pdf_url`
and `success` go to `successfulResults`; the others contribute their truthy
`doi`, their `metadata` (tagged with the source name) and their truthy
`error` (as `` `${name}: ${error}` ``); rejected outcomes contribute
`reason?.message || 'Unknown error'`. -/
def processSettled : List SettledRes → Collected
  | [] => { successfulResults := [], collectedDois := []
            collectedMetadata := [], errors := [] }
  | .fulfilled v :: rest =>
    let acc := processSettled rest
    if v.result.success && strTruthy v.result.pdf_url then
      { acc with successfulResults := v :: acc.successfulResults }
    else
      { acc with
        collectedDois :=
          (if strTruthy v.result.doi then [optStr v.result.doi] else []) ++
            acc.collectedDois
        collectedMetadata :=
          (match v.result.metadata with
           | some b => [(v.name, b)]
           | none => []) ++ acc.collectedMetadata
        errors :=
          (if strTruthy v.result.error then
             [v.name ++ ": ".data ++ optStr v.result.error]
           else []) ++ acc.errors }
  | .rejected m :: rest =>
    let acc := processSettled rest
    { acc with
      errors :=
        (match m with
         | some (c :: cs) => c :: cs
         | _ => "Unknown error".data) :: acc.errors }

/-- Metadata of the final result: the winning result's own metadata object,
or the source-tagged first collected metadata of the failure path. -/
inductive MetaVal
  | plain (b : Nat)
  | tagged (src : List Char) (b : Nat)
deriving DecidableEq

/-- The caller-visible `FetchResult` built by `fetchPaperInternal`. -/
structure FinalResult where
  success : Bool
  pdf_url : Option (List Char)
  pdf_path : Option (List Char)
  source : Option (List Char)
  metadata : Option MetaVal
  doi : Option (List Char)
  hasPartialData : Bool
  error : Option (List Char)
  triedSources : List (List Char)
  fetchedAt : Int
deriving DecidableEq

/-- The success result for the best direct hit (`src/paperFetcher.mjs` lines
289-296): `source: best.result.source || best.name`, no local download. -/
def mkFoundResult (best : NamedRes) (now : Int) : FinalResult :=
  { success := true, pdf_url := best.result.pdf_url, pdf_path := none
    source := if strTruthy best.result.source then best.result.source
              else some best.name
    metadata := best.result.metadata.map .plain
    doi := none, hasPartialData := false, error := none, triedSources := []
    fetchedAt := now }

/-- The success result of the secondary Unpaywall lookup (lines 323-330). -/
def mkUnpaywallResult (r : FetchRes) (now : Int) : FinalResult :=
  { success := true, pdf_url := r.pdf_url, pdf_path := none
    source := r.source, metadata := r.metadata.map .plain
    doi := none, hasPartialData := false, error := none, triedSources := []
    fetchedAt := now }

/-- `fetchPaperInternal`'s aggregation of the settled outcomes (lines
242-360).  `strategyNames` is `strategies.map(s => s.name)`; `unpaywall` is
what `fetchFromUnpaywall(firstDoi)` would do (value or thrown message),
consulted only when no direct PDF was found and a DOI was collected. -/
def aggregateResults (settled : List SettledRes)
    (strategyNames : List (List Char))
    (unpaywall : Except (List Char) FetchRes) (now : Int) : FinalResult :=
  let col := processSettled settled
  match sortStable (fun a b => decide (priorityOf a.name < priorityOf b.name))
      col.successfulResults with
  | best :: _ => mkFoundResult best now
  | [] =>
    let secondary : Option FetchRes × List (List Char) :=
      match col.collectedDois with
      | [] => (none, [])
      | _ :: _ =>
        match unpaywall with
        | .ok r =>
          if r.success && strTruthy r.pdf_url then (some r, []) else (none, [])
        | .error m => (none, ["Unpaywall: ".data ++ m])
    match secondary with
    | (some r, _) => mkUnpaywallResult r now
    | (none, extraErrors) =>
      let errors := col.errors ++ extraErrors
      { success := false
        pdf_url := none, pdf_path := none, source := none
        hasPartialData :=
          !col.collectedDois.isEmpty || !col.collectedMetadata.isEmpty
        error := some (match errors with
          | e :: _ => e
          | [] => "No open access PDF found".data)
        doi := match col.collectedDois with
          | d :: _ => some d
          | [] => none
        metadata := match col.collectedMetadata with
          | (s, b) :: _ => some (.tagged s b)
          | [] => none
        triedSources := strategyNames ++
          (if col.collectedDois.isEmpty then [] else ["Unpaywall".data])
        fetchedAt := now }

/-! ## Request deduplication (`fetchPaper`, `src/paperFetcher.mjs` lines
118-178)

The in-flight registry maps normalized keys to pending computations
(promises, identified by numbers).  All of lines 161-169 run synchronously —
no await separates the `has` check from the `set` — so the lookup-or-register
step is one atomic function of the registry. -/

/-- `inflightRequests`: normalized key to pending promise id. -/
abbrev InflightReg : Type := List Char → Option Nat

/-- `inflightRequests.set(key, p)`. -/
def regSet (r : InflightReg) (k : List Char) (p : Nat) : InflightReg :=
  fun x => if x = k then some p else r x

/-- `inflightRequests.delete(key)`. -/
def regDelete (r : InflightReg) (k : List Char) : InflightReg :=
  fun x => if x = k then none else r x

/-- Lines 161-169 of `src/paperFetcher.mjs`, reached on a cache miss: if an
in-flight computation exists for `normalizeTitle(title)`, return it (no new
computation); otherwise register a fresh computation `freshId` under that
key.  The third component tells whether a new provider pipeline was
started. -/
def inflightLookup (reg : InflightReg) (title : List Char) (freshId : Nat) :
    Nat × InflightReg × Bool :=
  let key := normalizeTitle title
  match reg key with
  | some p => (p, reg, false)
  | none => (freshId, regSet reg key freshId, true)

/-- Lines 171-177: `try { return await fetchPromise } finally
{ inflightRequests.delete(normalizedKey) }` — the registry entry is removed
when the computation settles, on the resolve path and the throw path
alike. -/
def settleInflight (reg : InflightReg) (title : List Char)
    (outcome : Except (List Char) Nat) : Except (List Char) Nat × InflightReg :=
  (outcome, regDelete reg (normalizeTitle title))

/-- The orchestrator's default cache lookup (`src/paperFetcher.mjs` line
125): `fetchPaper` calls `cacheGet(title)` with no options, so `allowStale`
takes its default value `true`. -/
def fetchPaperCacheLookup (entry : Option CacheEntry) (inRevalQueue : Bool)
    (now : Int) : Option CacheHit :=
  cacheGetResult entry true inRevalQueue now

/-! ## Theorems -/

/-- C5: for every cache entry with timestamp `cachedAt` and query time `t`
with `age = t - cachedAt`, the entry is expired iff `age > maxAge` (7 days
positive, 1 day negative), stale iff `age > maxAge - 1 hour`, and expired
implies stale. -/
theorem c5_staleness_thresholds :
    ∀ (e : CacheEntry) (c now : Int) (isNegative : Bool),
      e.cachedAt = some c →
      (checkStaleness (some e) isNegative now).expired
          = decide (now - c > (if isNegative then 86400000 else 604800000)) ∧
      (checkStaleness (some e) isNegative now).stale
          = decide (now - c >
              (if isNegative then 86400000 else 604800000) - 3600000) ∧
      ((checkStaleness (some e) isNegative now).expired = true →
        (checkStaleness (some e) isNegative now).stale = true) := by
  intro e c now isNegative h
  simp only [checkStaleness, h, CACHE_CONFIG]
  cases isNegative <;> simp <;> omega

/-- Witness for C5 at a concrete positive entry one millisecond past its
7-day expiry. -/
theorem c5_staleness_thresholds_witness :
    ({ success := some true, cachedAt := some 0, isNegativeCache := false
       payload := 0 } : CacheEntry).cachedAt = some 0 ∧
    ((checkStaleness
        (some { success := some true, cachedAt := some 0
                isNegativeCache := false, payload := 0 }) false 604800001).expired
          = decide ((604800001 : Int) - 0 > (if false then 86400000 else 604800000)) ∧
      (checkStaleness
        (some { success := some true, cachedAt := some 0
                isNegativeCache := false, payload := 0 }) false 604800001).stale
          = decide ((604800001 : Int) - 0 >
              (if false then 86400000 else 604800000) - 3600000) ∧
      ((checkStaleness
        (some { success := some true, cachedAt := some 0
                isNegativeCache := false, payload := 0 }) false 604800001).expired = true →
        (checkStaleness
        (some { success := some true, cachedAt := some 0
                isNegativeCache := false, payload := 0 }) false 604800001).stale = true)) :=
  ⟨rfl, c5_staleness_thresholds _ 0 604800001 false rfl⟩

/-- C1 (code bug): `cacheGet` serves an expired entry unless the caller
explicitly passes `allowStale: false` — the default is `allowStale: true`,
and `fetchPaper`'s cache lookup passes no options, so the orchestrator's
default lookup returns the expired entry (flagged `expired`) instead of
null.  Evaluated at a positive entry one millisecond past expiry. -/
theorem c1_expired_entry_served_by_default :
    fetchPaperCacheLookup
        (some { success := some true, cachedAt := some 0
                isNegativeCache := false, payload := 7 }) false 604800001
      = some { entry := { success := some true, cachedAt := some 0
                          isNegativeCache := false, payload := 7 }
               cached := true, stale := true, expired := true
               needsRevalidation := true } ∧
    cacheGetResult
        (some { success := some true, cachedAt := some 0
                isNegativeCache := false, payload := 7 }) false false 604800001
      = none := by
  exact ⟨rfl, rfl⟩

/-- C3 (code bug): a rate-limited failure opens the breaker immediately and
raises `config.timeout` to the provider's `retryAfter`, but the assignment
`this.config.timeout = Math.max(...)` outlives the open cycle: after the
breaker closes again (half-open, two successes), `timeoutCfg` is still
120000 ms, not the configured default 60000 ms.  Scenario: default breaker,
rate-limited failure with `retryAfter` 120 s at t=0, half-open at
t=120000, successes at t=120001 and t=120002. -/
theorem c3_rate_limit_timeout_persists :
    (recordFailure (newBreaker 0) (some 120) 0).state = CBState.openState ∧
    (recordFailure (newBreaker 0) (some 120) 0).timeoutCfg = 120000 ∧
    (isAllowed (recordFailure (newBreaker 0) (some 120) 0) 120000).2.state
      = CBState.halfOpen ∧
    (recordSuccess (recordSuccess
        (isAllowed (recordFailure (newBreaker 0) (some 120) 0) 120000).2
        120001) 120002).state = CBState.closed ∧
    (recordSuccess (recordSuccess
        (isAllowed (recordFailure (newBreaker 0) (some 120) 0) 120000).2
        120001) 120002).timeoutCfg = 120000 ∧
    ¬ (recordSuccess (recordSuccess
        (isAllowed (recordFailure (newBreaker 0) (some 120) 0) 120000).2
        120001) 120002).timeoutCfg = 60000 := by
  decide

/-- C4 counterexample: a dispatcher task that actually executes (breaker
closed, provider fulfils) performs breaker check, provider call and breaker
recording — it never acquires a rate-limiter token, and in particular its
first action is not a token acquisition. -/
theorem c4_no_rate_limiter_in_dispatch_path :
    (dispatchTask true (.ok 7)).1
      = [FetchEv.breakerCheck, FetchEv.providerCall, FetchEv.recordSuccessEv] ∧
    FetchEv.tokenAcquire ∉ (dispatchTask true (.ok 7)).1 ∧
    (dispatchTask true (.ok 7)).1.head? ≠ some FetchEv.tokenAcquire := by
  decide

/-- C4 amended: an executed provider task runs breaker check, then the raw
provider call, then records the outcome (success or failure) on the
breaker; a skipped task performs only the breaker check and settles as a
circuit-open failure.  No path acquires a rate-limiter token — `withRateLimit`
exists but `fetchPaperInternal` never calls it — and retries happen inside
the provider fetchers, not in this pipeline. -/
theorem c4_task_pipeline_events :
    ∀ (call : CallBehavior),
      FetchEv.tokenAcquire ∉ (dispatchTask true call).1 ∧
      FetchEv.tokenAcquire ∉ (dispatchTask false call).1 ∧
      (dispatchTask false call).1 = [FetchEv.breakerCheck] ∧
      (dispatchTask false call).2
        = { succeeded := false, payload := none
            errMsg := some "Circuit breaker open".data } ∧
      (dispatchTask true call).1
        = [FetchEv.breakerCheck, FetchEv.providerCall,
           match call with
           | .ok _ => FetchEv.recordSuccessEv
           | .thrown _ => FetchEv.recordFailureEv] ∧
      (dispatchTask true call).2.succeeded
        = (match call with
           | .ok _ => true
           | .thrown _ => false) := by
  intro call
  cases call <;> simp [dispatchTask, withCircuitBreakerRun]

/-- The dispatcher loop returns the accumulated results followed by the
pending outcomes in order, for every executing set, scheduler and step: the
concurrency bookkeeping never touches the results array. -/
theorem dispatchLoop_result_order (pending : List (Nat × α)) :
    ∀ (executing : List Nat) (results : List α) (limit : Nat)
      (sched : Nat → List Nat) (step : Nat),
      dispatchLoop pending executing results limit sched step
        = results ++ pending.map (·.2) := by
  induction pending with
  | nil => intro executing results limit sched step; simp [dispatchLoop]
  | cons p rest ih =>
    intro executing results limit sched step
    obtain ⟨i, a⟩ := p
    simp only [dispatchLoop]
    split <;> rw [ih] <;> simp

/-- C7: for every task list and concurrency limit ≥ 1, the dispatcher
returns exactly one settled outcome per task, in input order, for every
completion schedule. -/
theorem c7_dispatcher_order_preserving :
    ∀ (tasks : List α) (limit : Nat) (sched : Nat → List Nat),
      1 ≤ limit →
      (runWithConcurrencyLimit tasks limit sched).length = tasks.length ∧
      runWithConcurrencyLimit tasks limit sched = tasks := by
  intro tasks limit sched _
  have h : runWithConcurrencyLimit tasks limit sched = tasks := by
    simp [runWithConcurrencyLimit, dispatchLoop_result_order,
      List.enum_map_snd]
  exact ⟨by rw [h], h⟩

/-- Witness for C7: two tasks under limit 1 with a scheduler that names no
promises (oldest-settles fallback). -/
theorem c7_dispatcher_order_preserving_witness :
    (1 : Nat) ≤ 1 ∧
    ((runWithConcurrencyLimit [10, 20] 1 (fun _ => [])).length
        = ([10, 20] : List Nat).length ∧
      runWithConcurrencyLimit [10, 20] 1 (fun _ => []) = [10, 20]) :=
  ⟨Nat.le_refl 1,
    c7_dispatcher_order_preserving [10, 20] 1 (fun _ => []) (Nat.le_refl 1)⟩

/-- C9: on a cache miss with no in-flight entry, `fetchPaper` registers the
fresh computation under the normalized key; while it is pending, any call
whose title normalizes to the same key gets the very same computation back
without starting a new pipeline; and when the computation settles — resolve
or throw alike — the entry is removed, leaving other keys untouched. -/
theorem c9_inflight_registry_lifecycle :
    ∀ (reg : InflightReg) (title title2 : List Char) (freshId freshId2 : Nat)
      (outcome : Except (List Char) Nat),
      reg (normalizeTitle title) = none →
      normalizeTitle title2 = normalizeTitle title →
      (inflightLookup reg title freshId).1 = freshId ∧
      (inflightLookup reg title freshId).2.2 = true ∧
      (inflightLookup reg title freshId).2.1 (normalizeTitle title)
        = some freshId ∧
      inflightLookup ((inflightLookup reg title freshId).2.1) title2 freshId2
        = (freshId, (inflightLookup reg title freshId).2.1, false) ∧
      (settleInflight ((inflightLookup reg title freshId).2.1) title
          outcome).1 = outcome ∧
      (settleInflight ((inflightLookup reg title freshId).2.1) title
          outcome).2 (normalizeTitle title) = none ∧
      (∀ k, k ≠ normalizeTitle title →
        (settleInflight ((inflightLookup reg title freshId).2.1) title
            outcome).2 k = reg k) := by
  intro reg title title2 freshId freshId2 outcome hmiss hkey
  refine ⟨?_, ?_, ?_, ?_, ?_, ?_, ?_⟩
  · simp [inflightLookup, hmiss]
  · simp [inflightLookup, hmiss]
  · simp [inflightLookup, hmiss, regSet]
  · simp [inflightLookup, hmiss, hkey, regSet]
  · simp [inflightLookup, settleInflight, hmiss]
  · simp [inflightLookup, settleInflight, regDelete, hmiss]
  · intro k hk
    simp [inflightLookup, settleInflight, regSet, regDelete, hmiss, hk]

/-- Witness for C9: empty registry, titles `"A Title"` and `"  a   title "`
(same normalized key), a throwing computation. -/
theorem c9_inflight_registry_lifecycle_witness :
    ((fun _ => none : InflightReg) (normalizeTitle "A Title".data) = none ∧
      normalizeTitle "  a   title ".data = normalizeTitle "A Title".data) ∧
    (inflightLookup (fun _ => none) "A Title".data 1).1 = 1 ∧
    (inflightLookup (fun _ => none) "A Title".data 1).2.2 = true ∧
    (inflightLookup (fun _ => none) "A Title".data 1).2.1
        (normalizeTitle "A Title".data) = some 1 ∧
    inflightLookup ((inflightLookup (fun _ => none) "A Title".data 1).2.1)
        "  a   title ".data 2
      = (1, (inflightLookup (fun _ => none) "A Title".data 1).2.1, false) ∧
    (settleInflight ((inflightLookup (fun _ => none) "A Title".data 1).2.1)
        "A Title".data (.error "boom".data)).1 = .error "boom".data ∧
    (settleInflight ((inflightLookup (fun _ => none) "A Title".data 1).2.1)
        "A Title".data (.error "boom".data)).2
        (normalizeTitle "A Title".data) = none ∧
    (∀ k, k ≠ normalizeTitle "A Title".data →
      (settleInflight ((inflightLookup (fun _ => none) "A Title".data 1).2.1)
          "A Title".data (.error "boom".data)).2 k
        = (fun _ => none : InflightReg) k) :=
  ⟨⟨rfl, by decide⟩,
    c9_inflight_registry_lifecycle (fun _ => none) "A Title".data
      "  a   title ".data 1 2 (.error "boom".data) rfl (by decide)⟩

/-- A `` `negative:` ``-prefixed KV key never equals a `` `paper:` ``-prefixed
one. -/
theorem negative_paper_keys_disjoint (a b : List Char) :
    ¬ ("negative:".data ++ a = "paper:".data ++ b) := by
  intro h
  simp only [show "negative:".data = 'n' :: "egative:".data from rfl,
    show "paper:".data = 'p' :: "aper:".data from rfl, List.cons_append] at h
  exact absurd (List.cons.inj h).1 (by decide)

/-- C2 counterexample: on the JSON-file backend, `cacheSetNegative` routes
through plain `cacheSet`, which writes at the same unprefixed normalized key
— so writing a negative result for `"k"` destroys the existing positive
entry for `"k"`. -/
theorem c2_json_negative_overwrites_positive :
    ¬ ((jsonCacheSetNegative
          [(normalizeTitle "k".data,
            { success := some true, cachedAt := some 5
              isNegativeCache := false, payload := 1 })]
          "k".data
          { success := some false, cachedAt := some 9
            isNegativeCache := false, payload := 2 } 9).lookup
        (normalizeTitle "k".data)
      = some { success := some true, cachedAt := some 5
               isNegativeCache := false, payload := 1 }) := by
  decide

/-- C2 amended: on the KV backend the claim holds — positive writes live
under `` `paper:` `` and negative writes under `` `negative:` ``, so
`cacheSetNegative` leaves every positive entry unchanged and `cacheSet`
leaves every negative entry unchanged, for all keys.  On the JSON-file
backend the namespaces coincide (see the counterexample). -/
theorem c2_kv_namespaces_never_collide :
    ∀ (m : KVStore) (key key' : List Char) (v : CacheEntry) (now : Int),
      cacheSetNegativeKV m key v now ("paper:".data ++ normalizeTitle key')
        = m ("paper:".data ++ normalizeTitle key') ∧
      cacheSetKV m key v now ("negative:".data ++ normalizeTitle key')
        = m ("negative:".data ++ normalizeTitle key') := by
  intro m key key' v now
  constructor
  · simp only [cacheSetNegativeKV, kvSet]
    rw [if_neg]
    exact fun h => negative_paper_keys_disjoint _ _ h.symm
  · simp only [cacheSetKV, kvSet]
    rw [if_neg]
    exact fun h => negative_paper_keys_disjoint _ _ h

/-- C8: the retry executor rethrows a non-retryable (Permanent)
classification immediately without consuming remaining attempts; exhausted
retries rethrow the last error carrying its classification; a retryable
failure with attempts remaining sleeps `getRetryDelay` and recurses; and the
delay is the provider-declared `retryAfter * 1000` ms for rate limits and
`min(base * 2^attempt * jitter, 30000)` with `jitter ∈ [0.5, 1.5)`
otherwise. -/
theorem c8_retry_executor :
    ∀ (fetch : Nat → Except RawError Nat) (retries attempt : Nat)
      (rand : Nat → ℚ) (now : Int) (e : RawError),
      fetch attempt = .error e →
      0 ≤ rand attempt → rand attempt < 1 →
      ((classifyError e now).kind = ErrKind.permanent →
        withRetryAux fetch retries rand now attempt
          = (.failed e (classifyError e now), [])) ∧
      (¬ (classifyError e now).kind = ErrKind.permanent → retries ≤ attempt →
        withRetryAux fetch retries rand now attempt
          = (.failed e (classifyError e now), [])) ∧
      (¬ (classifyError e now).kind = ErrKind.permanent → attempt < retries →
        withRetryAux fetch retries rand now attempt
          = ((withRetryAux fetch retries rand now (attempt + 1)).1,
             getRetryDelay (classifyError e now) attempt 1000 (rand attempt)
               :: (withRetryAux fetch retries rand now (attempt + 1)).2)) ∧
      ((classifyError e now).kind = ErrKind.rateLimited →
        ∃ ra : Int, (classifyError e now).retryAfter = some ra ∧ ¬ ra = 0 ∧
          getRetryDelay (classifyError e now) attempt 1000 (rand attempt)
            = (ra : ℚ) * 1000) ∧
      (¬ (classifyError e now).kind = ErrKind.rateLimited →
        ∃ j : ℚ, 1 / 2 ≤ j ∧ j < 3 / 2 ∧
          getRetryDelay (classifyError e now) attempt 1000 (rand attempt)
            = min (1000 * 2 ^ attempt * j) 30000) := by
  intro fetch retries attempt rand now e hf h0 h1
  refine ⟨?_, ?_, ?_, ?_, ?_⟩
  · intro hperm
    rw [withRetryAux.eq_def]
    simp [hf, isRetryable, hperm]
  · intro hk hle
    have hnlt : ¬ attempt < retries := by omega
    rw [withRetryAux.eq_def]
    simp [hf, isRetryable, hk, hnlt]
  · intro hk hlt
    rw [withRetryAux.eq_def]
    simp [hf, isRetryable, hk, hlt]
  · intro hrl
    by_cases h429 : e.status = some 429
    · rcases hp : parseRetryAfterHdr e.retryAfterHeader now with _ | r
      · refine ⟨60, ?_, by norm_num, ?_⟩
        · simp [classifyError, h429, hp]
        · simp [classifyError, getRetryDelay, h429, hp]
      · by_cases hr : r = 0
        · refine ⟨60, ?_, by norm_num, ?_⟩
          · simp [classifyError, h429, hp, hr]
          · simp [classifyError, getRetryDelay, h429, hp, hr]
        · refine ⟨r, ?_, hr, ?_⟩
          · simp [classifyError, h429, hp, hr]
          · simp [classifyError, getRetryDelay, h429, hp, hr]
    · exfalso
      simp only [classifyError, h429, if_false] at hrl
      split at hrl <;> simp_all
  · intro hnrl
    refine ⟨1 / 2 + rand attempt, by linarith, by linarith, ?_⟩
    rcases hk : (classifyError e now).kind with _ | _ | _
    · simp [getRetryDelay, hk, backoffDelay]
    · simp [getRetryDelay, hk, backoffDelay]
    · exact absurd hk hnrl

/-- Witness for C8: a provider that always returns HTTP 500, two retries,
`Math.random()` draw 1/2, evaluated at attempt 0. -/
theorem c8_retry_executor_witness :
    let err : RawError :=
      { status := some 500, code := none, retryAfterHeader := none
        message := "server error".data }
    let fetch : Nat → Except RawError Nat := fun _ => Except.error err
    let rand : Nat → ℚ := fun _ => 1 / 2
    (fetch 0 = Except.error err ∧ (0 : ℚ) ≤ rand 0 ∧ rand 0 < 1) ∧
    (((classifyError err 0).kind = ErrKind.permanent →
        withRetryAux fetch 2 rand 0 0
          = (.failed err (classifyError err 0), [])) ∧
      (¬ (classifyError err 0).kind = ErrKind.permanent → 2 ≤ 0 →
        withRetryAux fetch 2 rand 0 0
          = (.failed err (classifyError err 0), [])) ∧
      (¬ (classifyError err 0).kind = ErrKind.permanent → 0 < 2 →
        withRetryAux fetch 2 rand 0 0
          = ((withRetryAux fetch 2 rand 0 1).1,
             getRetryDelay (classifyError err 0) 0 1000 (rand 0)
               :: (withRetryAux fetch 2 rand 0 1).2)) ∧
      ((classifyError err 0).kind = ErrKind.rateLimited →
        ∃ ra : Int, (classifyError err 0).retryAfter = some ra ∧ ¬ ra = 0 ∧
          getRetryDelay (classifyError err 0) 0 1000 (rand 0)
            = (ra : ℚ) * 1000) ∧
      (¬ (classifyError err 0).kind = ErrKind.rateLimited →
        ∃ j : ℚ, 1 / 2 ≤ j ∧ j < 3 / 2 ∧
          getRetryDelay (classifyError err 0) 0 1000 (rand 0)
            = min (1000 * 2 ^ 0 * j) 30000)) := by
  exact ⟨⟨rfl, by norm_num, by norm_num⟩,
    c8_retry_executor _ 2 0 _ 0 _ rfl (by norm_num) (by norm_num)⟩

/-- `insertStable` never produces the empty list. -/
theorem insertStable_ne_nil (lt : α → α → Bool) (x : α) (l : List α) :
    insertStable lt x l ≠ [] := by
  cases l with
  | nil => simp [insertStable]
  | cons y ys =>
    simp only [insertStable]
    split <;> simp

/-- `sortStable` is empty exactly on the empty list. -/
theorem sortStable_eq_nil_iff (lt : α → α → Bool) (l : List α) :
    sortStable lt l = [] ↔ l = [] := by
  cases l with
  | nil => simp [sortStable]
  | cons y ys =>
    simp only [sortStable, List.foldr_cons]
    exact ⟨fun h => absurd h (insertStable_ne_nil lt y _), fun h => by simp at h⟩

/-- The head of the stable ascending sort by `f` is a leftmost minimum: it
is an element of the list, its `f`-value is minimal, and every element
before it in the original list has a strictly larger `f`-value. -/
theorem sortStable_head_min (f : α → Nat) (l : List α) (x : α) :
    (sortStable (fun a b => decide (f a < f b)) l).head? = some x →
    x ∈ l ∧ (∀ y ∈ l, f x ≤ f y) ∧
      ∃ p q, l = p ++ x :: q ∧ ∀ y ∈ p, f x < f y := by
  induction l generalizing x with
  | nil => simp [sortStable]
  | cons a l ih =>
    intro hhead
    rw [show sortStable (fun a b => decide (f a < f b)) (a :: l)
        = insertStable (fun a b => decide (f a < f b)) a
            (sortStable (fun a b => decide (f a < f b)) l) from rfl] at hhead
    cases hs : sortStable (fun a b => decide (f a < f b)) l with
    | nil =>
      rw [hs] at hhead
      simp only [insertStable, List.head?_cons, Option.some.injEq] at hhead
      subst hhead
      refine ⟨List.mem_cons_self a l, ?_, [], l, rfl, by simp⟩
      intro y hy
      rcases List.mem_cons.mp hy with h | h
      · exact Nat.le_of_eq (congrArg f h.symm)
      · exact absurd ((sortStable_eq_nil_iff _ l).mp hs ▸ h) (List.not_mem_nil y)
    | cons b ys =>
      rw [hs] at hhead
      obtain ⟨hbmem, hbmin, p, q, hdecomp, hbefore⟩ := ih b (by rw [hs]; rfl)
      simp only [insertStable] at hhead
      by_cases hlt : f b < f a
      · rw [if_pos (by simpa using hlt)] at hhead
        simp only [List.head?_cons, Option.some.injEq] at hhead
        subst hhead
        refine ⟨List.mem_cons_of_mem a hbmem, ?_, a :: p, q,
          by rw [hdecomp, List.cons_append], ?_⟩
        · intro y hy
          rcases List.mem_cons.mp hy with h | h
          · exact h ▸ Nat.le_of_lt hlt
          · exact hbmin y h
        · intro y hy
          rcases List.mem_cons.mp hy with h | h
          · exact h ▸ hlt
          · exact hbefore y h
      · rw [if_neg (by simpa using hlt)] at hhead
        simp only [List.head?_cons, Option.some.injEq] at hhead
        subst hhead
        refine ⟨List.mem_cons_self a l, ?_, [], l, rfl, by simp⟩
        intro y hy
        rcases List.mem_cons.mp hy with h | h
        · exact Nat.le_of_eq (congrArg f h.symm)
        · exact Nat.le_trans (Nat.le_of_not_lt hlt) (hbmin y h)

/-- C6: whenever at least one dispatched outcome is Found (fulfilled,
`success` and truthy `pdf_url`), the aggregator returns success with the
`pdf_url` of the Found outcome of lowest source-priority value, ties broken
by task order (`best` is in the Found list, has minimal priority, and every
Found outcome before it has strictly larger priority).  The result is a pure
function of the settled outcome list, so it cannot depend on completion
timing. -/
theorem c6_aggregator_selects_lowest_priority :
    ∀ (settled : List SettledRes) (strategyNames : List (List Char))
      (upw : Except (List Char) FetchRes) (now : Int),
      (processSettled settled).successfulResults ≠ [] →
      ∃ best : NamedRes,
        best ∈ (processSettled settled).successfulResults ∧
        (∀ y ∈ (processSettled settled).successfulResults,
          priorityOf best.name ≤ priorityOf y.name) ∧
        (∃ p q, (processSettled settled).successfulResults = p ++ best :: q ∧
          ∀ y ∈ p, priorityOf best.name < priorityOf y.name) ∧
        aggregateResults settled strategyNames upw now = mkFoundResult best now ∧
        (aggregateResults settled strategyNames upw now).success = true ∧
        (aggregateResults settled strategyNames upw now).pdf_url
          = best.result.pdf_url := by
  intro settled strategyNames upw now hne
  have hsne : sortStable
      (fun a b : NamedRes => decide (priorityOf a.name < priorityOf b.name))
      (processSettled settled).successfulResults ≠ [] := by
    rw [Ne, sortStable_eq_nil_iff]
    exact hne
  cases hs : sortStable
      (fun a b : NamedRes => decide (priorityOf a.name < priorityOf b.name))
      (processSettled settled).successfulResults with
  | nil => exact absurd hs hsne
  | cons best rest =>
    obtain ⟨hmem, hmin, hfirst⟩ :=
      sortStable_head_min (fun v : NamedRes => priorityOf v.name)
        (processSettled settled).successfulResults best (by rw [hs]; rfl)
    have hagg : aggregateResults settled strategyNames upw now
        = mkFoundResult best now := by
      simp only [aggregateResults]
      rw [hs]
    exact ⟨best, hmem, hmin, hfirst, hagg, by rw [hagg]; simp [mkFoundResult],
      by rw [hagg]; simp [mkFoundResult]⟩

/-- Witness for C6: Semantic Scholar (priority 2) settles before arXiv
(priority 1) in task order; the aggregator still picks arXiv's PDF. -/
theorem c6_aggregator_selects_lowest_priority_witness :
    let rB : FetchRes :=
      { success := true, pdf_url := some "u2".data, source := none
        doi := none, metadata := none, error := none }
    let rA : FetchRes :=
      { success := true, pdf_url := some "u1".data, source := none
        doi := none, metadata := none, error := none }
    let settled : List SettledRes :=
      [.fulfilled { name := "Semantic Scholar".data, result := rB },
       .fulfilled { name := "arXiv".data, result := rA }]
    (processSettled settled).successfulResults ≠ [] ∧
    (∃ best : NamedRes,
      best ∈ (processSettled settled).successfulResults ∧
      (∀ y ∈ (processSettled settled).successfulResults,
        priorityOf best.name ≤ priorityOf y.name) ∧
      (∃ p q, (processSettled settled).successfulResults = p ++ best :: q ∧
        ∀ y ∈ p, priorityOf best.name < priorityOf y.name) ∧
      aggregateResults settled [] (.error "x".data) 0
        = mkFoundResult best 0 ∧
      (aggregateResults settled [] (.error "x".data) 0).success = true ∧
      (aggregateResults settled [] (.error "x".data) 0).pdf_url
        = best.result.pdf_url) := by
  exact ⟨by decide,
    c6_aggregator_selects_lowest_priority _ [] (.error "x".data) 0 (by decide)⟩

/-! ### Normalization idempotence (claim C10) -/

/-- The space character is whitespace. -/
theorem isJsSpace_space : isJsSpace ' ' = true := by decide

/-- Specialization of the `Char.ofNat`/`Char.toNat` round trip to valid
code points. -/
theorem char_toNat_ofNat (n : Nat) (h : n.isValidChar) :
    (Char.ofNat n).toNat = n := by
  simp only [Char.ofNat, dif_pos h]
  rfl

set_option maxHeartbeats 4000000 in
/-- Every code point the lowercase table produces is itself unmapped (the
lowercase of a lowercase character is itself), is a valid scalar value, and
is neither U+0130 nor U+03A3 — the two code points `lowerChar` and
`jsLowerAux` treat specially. -/
theorem lc_outputs_fixed :
    ∀ b ∈ lcTable, ∀ r ∈ b.2.2, ∀ i ∈ List.range (r.2.1 + 1 - r.1),
      lookupLc lcTable (r.2.2 + i) = none ∧ (r.2.2 + i).isValidChar ∧
      (r.2.2 + i) ≠ 0x130 ∧ (r.2.2 + i) ≠ 0x3A3 := by
  decide

/-- Every chunk of the lowercase table is ordered with disjoint, nonempty
ranges. -/
theorem lcChunks_sorted : ∀ b ∈ lcTable, rangesSorted b.2.2 = true := by
  decide

/-- The chunk spans of the lowercase table are ordered and disjoint. -/
theorem lcBuckets_sorted : bucketsSorted lcTable = true := by decide

/-- Each chunk's recorded span is exactly the first and last code point of
its ranges, so the two-level lookup reaches every table entry. -/
theorem lcTable_bounds :
    ∀ b ∈ lcTable,
      b.2.2.head?.map (·.1) = some b.1 ∧
      b.2.2.getLast?.map (·.2.1) = some b.2.1 := by
  decide

/-- The capital sigma is mapped by the table (to U+03C3), so it is never a
fixed point of the conversion. -/
theorem sigma_mapped : lookupLc lcTable (Char.toNat 'Σ') = some 0x3C3 := by
  decide

/-- The expansion of U+0130, the final sigma, and the space character are
all fixed by the lowercase conversion. -/
theorem lcFixed_special :
    lcFixed (Char.ofNat 0x69) ∧ lcFixed (Char.ofNat 0x307) ∧
    lcFixed 'ς' ∧ lcFixed ' ' := by
  constructor
  · exact ⟨by decide, by decide⟩
  constructor
  · exact ⟨by decide, by decide⟩
  constructor
  · exact ⟨by decide, by decide⟩
  · exact ⟨by decide, by decide⟩

/-- A successful chunk lookup comes from a triple of the chunk whose range
contains the code point, with the adjusted mapping value. -/
theorem lookupLcRanges_some_mem :
    ∀ (rs : List (Nat × Nat × Nat)) (n m : Nat),
      lookupLcRanges rs n = some m →
      ∃ r ∈ rs, r.1 ≤ n ∧ n ≤ r.2.1 ∧ m = r.2.2 + (n - r.1) := by
  intro rs
  induction rs with
  | nil => intro n m h; simp [lookupLcRanges] at h
  | cons r rest ih =>
    intro n m h
    obtain ⟨a, b, mm⟩ := r
    by_cases h1 : n < a
    · simp [lookupLcRanges, h1] at h
    · by_cases h2 : n ≤ b
      · simp only [lookupLcRanges, if_neg h1, if_pos h2,
          Option.some.injEq] at h
        exact ⟨(a, b, mm), List.mem_cons_self _ _, by omega, h2, h.symm⟩
      · simp only [lookupLcRanges, if_neg h1, if_neg h2] at h
        obtain ⟨r', hr', hle, hge, hm⟩ := ih n m h
        exact ⟨r', List.mem_cons_of_mem _ hr', hle, hge, hm⟩

/-- A successful table lookup comes from a triple of some chunk whose range
contains the code point, with the adjusted mapping value. -/
theorem lookupLc_some_mem :
    ∀ (bs : List (Nat × Nat × List (Nat × Nat × Nat))) (n m : Nat),
      lookupLc bs n = some m →
      ∃ b ∈ bs, ∃ r ∈ b.2.2, r.1 ≤ n ∧ n ≤ r.2.1 ∧ m = r.2.2 + (n - r.1) := by
  intro bs
  induction bs with
  | nil => intro n m h; simp [lookupLc] at h
  | cons b rest ih =>
    intro n m h
    obtain ⟨lo, hi, rs⟩ := b
    by_cases h1 : n < lo
    · simp [lookupLc, h1] at h
    · by_cases h2 : n ≤ hi
      · simp only [lookupLc, if_neg h1, if_pos h2] at h
        obtain ⟨r', hr', hle, hge, hm⟩ := lookupLcRanges_some_mem rs n m h
        exact ⟨(lo, hi, rs), List.mem_cons_self _ _, r', hr', hle, hge, hm⟩
      · simp only [lookupLc, if_neg h1, if_neg h2] at h
        obtain ⟨b', hb', r', hr', hle, hge, hm⟩ := ih n m h
        exact ⟨b', List.mem_cons_of_mem _ hb', r', hr', hle, hge, hm⟩

/-- Every character the unconditional mapping produces is fixed by the
conversion in every context: mapped characters land on unmapped code points
(by `lc_outputs_fixed`), and unmapped characters other than the two special
code points map to themselves. -/
theorem lowerChar_mem_fixed : ∀ (d c : Char), c ∈ lowerChar d → lcFixed c := by
  intro d c hc
  by_cases hdI : d = 'İ'
  · rw [hdI] at hc
    simp only [lowerChar, if_pos rfl] at hc
    cases hc with
    | head => exact lcFixed_special.1
    | tail _ h2 =>
      cases h2 with
      | head => exact lcFixed_special.2.1
      | tail _ h3 => cases h3
  · cases hl : lookupLc lcTable d.toNat with
    | none =>
      have hld : lowerChar d = [d] := by simp [lowerChar, hdI, hl]
      rw [hld] at hc
      simp only [List.mem_singleton] at hc
      subst hc
      refine ⟨hld, ?_⟩
      intro hS
      rw [hS, sigma_mapped] at hl
      exact Option.noConfusion hl
    | some m =>
      have hc' : c = Char.ofNat m := by
        simp only [lowerChar, if_neg hdI, hl, List.mem_singleton] at hc
        exact hc
      obtain ⟨b, hb, r, hr, hle, hge, hm⟩ := lookupLc_some_mem lcTable d.toNat m hl
      have hi : (d.toNat - r.1) ∈ List.range (r.2.1 + 1 - r.1) := by
        rw [List.mem_range]; omega
      obtain ⟨hnone, hvalid, hne130, hne3A3⟩ := lc_outputs_fixed b hb r hr _ hi
      have hom : r.2.2 + (d.toNat - r.1) = m := hm.symm
      rw [hom] at hnone hvalid hne130 hne3A3
      have htn : (Char.ofNat m).toNat = m := char_toNat_ofNat m hvalid
      subst hc'
      constructor
      · have hneI : Char.ofNat m ≠ 'İ' := by
          intro h
          apply hne130
          calc m = (Char.ofNat m).toNat := htn.symm
            _ = Char.toNat 'İ' := by rw [h]
            _ = 0x130 := by decide
        simp [lowerChar, hneI, htn, hnone]
      · intro h
        apply hne3A3
        calc m = (Char.ofNat m).toNat := htn.symm
          _ = Char.toNat 'Σ' := by rw [h]
          _ = 0x3A3 := by decide

/-- Every character of a lowercased string is a final sigma or comes from
the unconditional mapping of some input character. -/
theorem mem_jsLowerAux :
    ∀ (s prevRev : List Char) (c : Char), c ∈ jsLowerAux prevRev s →
      c = 'ς' ∨ ∃ d ∈ s, c ∈ lowerChar d := by
  intro s
  induction s with
  | nil => intro prevRev c h; simp [jsLowerAux] at h
  | cons a rest ih =>
    intro prevRev c h
    simp only [jsLowerAux, List.mem_append] at h
    rcases h with h | h
    · by_cases hcond :
        (a == 'Σ' && precededByCased prevRev && !followedByCased rest) = true
      · rw [if_pos hcond] at h
        simp only [List.mem_singleton] at h
        exact Or.inl h
      · rw [if_neg hcond] at h
        exact Or.inr ⟨a, List.mem_cons_self a rest, h⟩
    · rcases ih (a :: prevRev) c h with h' | ⟨d, hd, hc⟩
      · exact Or.inl h'
      · exact Or.inr ⟨d, List.mem_cons_of_mem a hd, hc⟩

/-- Lowercasing fixes a string all of whose characters are fixed in every
context — in particular the final-sigma branch can never fire, since no
character is a capital sigma. -/
theorem jsLowerAux_fixed :
    ∀ (s : List Char), (∀ c ∈ s, lcFixed c) →
      ∀ prevRev, jsLowerAux prevRev s = s := by
  intro s
  induction s with
  | nil => intro _ prevRev; rfl
  | cons a rest ih =>
    intro h prevRev
    obtain ⟨ha1, ha2⟩ := h a (List.mem_cons_self a rest)
    have hbeq : (a == 'Σ') = false := beq_eq_false_iff_ne.mpr ha2
    simp only [jsLowerAux, hbeq, Bool.false_and, Bool.false_eq_true, if_false,
      ha1, List.singleton_append]
    rw [ih (fun c hc => h c (List.mem_cons_of_mem a hc)) (a :: prevRev)]

/-- Every character of `collapseWsAux b l` is a space or a character of
`l`. -/
theorem mem_collapseWsAux (l : List Char) :
    ∀ (b : Bool) (c : Char), c ∈ collapseWsAux b l → c = ' ' ∨ c ∈ l := by
  induction l with
  | nil => intro b c h; simp [collapseWsAux] at h
  | cons a rest ih =>
    intro b c h
    by_cases ha : isJsSpace a = true
    · cases b with
      | true =>
        simp only [collapseWsAux, ha, if_true] at h
        rcases ih true c h with h' | h'
        · exact Or.inl h'
        · exact Or.inr (List.mem_cons_of_mem a h')
      | false =>
        simp only [collapseWsAux, ha, if_true] at h
        rcases List.mem_cons.mp h with h' | h'
        · exact Or.inl h'
        · rcases ih true c h' with h'' | h''
          · exact Or.inl h''
          · exact Or.inr (List.mem_cons_of_mem a h'')
    · simp only [collapseWsAux, ha] at h
      rcases List.mem_cons.mp h with h' | h'
      · exact Or.inr (h' ▸ List.mem_cons_self a rest)
      · rcases ih false c h' with h'' | h''
        · exact Or.inl h''
        · exact Or.inr (List.mem_cons_of_mem a h'')

/-- Every character of `trimStr l` is a character of `l`. -/
theorem mem_trimStr (l : List Char) (c : Char) (h : c ∈ trimStr l) : c ∈ l := by
  unfold trimStr at h
  rw [List.mem_reverse] at h
  have h1 : c ∈ (l.dropWhile isJsSpace).reverse :=
    List.Sublist.mem h (List.dropWhile_suffix isJsSpace).sublist
  rw [List.mem_reverse] at h1
  exact List.Sublist.mem h1 (List.dropWhile_suffix isJsSpace).sublist

/-- `collapseWsAux false` preserves whether the string starts with
whitespace. -/
theorem headWs_collapseWsAux (l : List Char) :
    headWs (collapseWsAux false l) = headWs l := by
  cases l with
  | nil => rfl
  | cons c rest =>
    by_cases hc : isJsSpace c = true
    · simp [collapseWsAux, hc, headWs, isJsSpace_space]
    · simp [collapseWsAux, hc, headWs]

/-- `collapseWsAux false` is empty only on the empty string. -/
theorem collapseWsAux_false_eq_nil (l : List Char)
    (h : collapseWsAux false l = []) : l = [] := by
  cases l with
  | nil => rfl
  | cons c rest =>
    by_cases hc : isJsSpace c = true <;> simp [collapseWsAux, hc] at h

/-- `collapseWsAux true` is empty only when every character is
whitespace. -/
theorem collapseWsAux_true_eq_nil (l : List Char) :
    collapseWsAux true l = [] → ∀ c ∈ l, isJsSpace c = true := by
  induction l with
  | nil => intro _ c h; simp at h
  | cons a rest ih =>
    intro h c hc
    by_cases ha : isJsSpace a = true
    · simp only [collapseWsAux, ha, if_true] at h
      rcases List.mem_cons.mp hc with h' | h'
      · exact h' ▸ ha
      · exact ih h c h'
    · simp [collapseWsAux, ha] at h

/-- Dropping the head preserves `lastWs` on strings with a nonempty
tail. -/
theorem lastWs_cons (a : Char) (l : List Char) (h : l ≠ []) :
    lastWs (a :: l) = lastWs l := by
  unfold lastWs headWs
  obtain ⟨x, xs, hx⟩ := List.exists_cons_of_ne_nil (by simpa using h :
    l.reverse ≠ [])
  simp [hx, List.head?_append]

/-- A nonempty all-whitespace string ends with whitespace. -/
theorem lastWs_of_all_ws (l : List Char) (hne : l ≠ [])
    (h : ∀ c ∈ l, isJsSpace c = true) : lastWs l = true := by
  unfold lastWs headWs
  obtain ⟨x, xs, hx⟩ := List.exists_cons_of_ne_nil (by simpa using hne :
    l.reverse ≠ [])
  rw [hx]
  exact h x (List.mem_reverse.mp (hx ▸ List.mem_cons_self x xs))

/-- A string produced by `collapseWsAux` ends with whitespace only if its
input did. -/
theorem lastWs_collapseWsAux (l : List Char) :
    ∀ b, lastWs (collapseWsAux b l) = true → lastWs l = true := by
  induction l with
  | nil => intro b h; simpa [collapseWsAux] using h
  | cons a rest ih =>
    intro b h
    by_cases ha : isJsSpace a = true
    · cases b with
      | true =>
        simp only [collapseWsAux, ha, if_true] at h
        by_cases hrest : rest = []
        · subst hrest
          simp [collapseWsAux, lastWs, headWs] at h
        · rw [lastWs_cons a rest hrest]
          exact ih true h
      | false =>
        simp only [collapseWsAux, ha, if_true, Bool.false_eq_true, if_false]
          at h
        by_cases hX : collapseWsAux true rest = []
        · refine lastWs_of_all_ws (a :: rest) (by simp) ?_
          intro c hc
          rcases List.mem_cons.mp hc with h' | h'
          · exact h' ▸ ha
          · exact collapseWsAux_true_eq_nil rest hX c h'
        · rw [lastWs_cons ' ' _ hX] at h
          have hrest : rest ≠ [] := by
            intro h0
            subst h0
            exact hX rfl
          rw [lastWs_cons a rest hrest]
          exact ih true h
    · have hc : collapseWsAux b (a :: rest) = a :: collapseWsAux false rest := by
        cases b <;> simp [collapseWsAux, ha]
      rw [hc] at h
      by_cases hY : collapseWsAux false rest = []
      · have hrest : rest = [] := collapseWsAux_false_eq_nil rest hY
        subst hrest
        simp only [hY] at h
        simp [lastWs, headWs, ha] at h
      · rw [lastWs_cons a _ hY] at h
        have hrest : rest ≠ [] := by
          intro h0
          subst h0
          exact hY rfl
        rw [lastWs_cons a rest hrest]
        exact ih false h

/-- The string left by `dropWhile isJsSpace` does not start with
whitespace. -/
theorem headWs_dropWhile (l : List Char) :
    headWs (l.dropWhile isJsSpace) = false := by
  have h := List.head?_dropWhile_not isJsSpace l
  unfold headWs
  cases hh : (l.dropWhile isJsSpace).head? with
  | none => rfl
  | some c =>
    rw [hh] at h
    exact h

/-- `dropWhile isJsSpace` fixes strings that do not start with
whitespace. -/
theorem dropWhile_fix (l : List Char) (h : headWs l = false) :
    l.dropWhile isJsSpace = l := by
  cases l with
  | nil => rfl
  | cons c rest =>
    simp only [headWs, List.head?_cons] at h
    simp [List.dropWhile, h]

/-- `trim` fixes strings that neither start nor end with whitespace. -/
theorem trimStr_fix (l : List Char) (h1 : headWs l = false)
    (h2 : lastWs l = false) : trimStr l = l := by
  unfold lastWs at h2
  unfold trimStr
  rw [dropWhile_fix l h1, dropWhile_fix l.reverse h2, List.reverse_reverse]

/-- The trimmed string does not start with whitespace. -/
theorem headWs_trimStr (l : List Char) : headWs (trimStr l) = false := by
  have hah : headWs (l.dropWhile isJsSpace) = false := headWs_dropWhile l
  obtain ⟨t, ht⟩ :=
    (List.dropWhile_suffix isJsSpace :
      (l.dropWhile isJsSpace).reverse.dropWhile isJsSpace
        <:+ (l.dropWhile isJsSpace).reverse)
  have ha2 : l.dropWhile isJsSpace
      = ((l.dropWhile isJsSpace).reverse.dropWhile isJsSpace).reverse
        ++ t.reverse := by
    have h3 := congrArg List.reverse ht
    rw [List.reverse_append, List.reverse_reverse] at h3
    exact h3.symm
  unfold trimStr
  cases hdrev :
      ((l.dropWhile isJsSpace).reverse.dropWhile isJsSpace).reverse with
  | nil => rfl
  | cons c cs =>
    rw [hdrev, List.cons_append] at ha2
    rw [ha2] at hah
    simp only [headWs, List.head?_cons] at hah ⊢
    exact hah

/-- The trimmed string does not end with whitespace. -/
theorem lastWs_trimStr (l : List Char) : lastWs (trimStr l) = false := by
  unfold lastWs trimStr
  rw [List.reverse_reverse]
  exact headWs_dropWhile _

/-- Re-collapsing a collapsed string changes nothing, in every mode
pairing that occurs. -/
theorem collapseWsAux_comp (l : List Char) :
    collapseWsAux false (collapseWsAux false l) = collapseWsAux false l ∧
    collapseWsAux false (collapseWsAux true l) = collapseWsAux true l ∧
    collapseWsAux true (collapseWsAux true l) = collapseWsAux true l := by
  induction l with
  | nil => simp [collapseWsAux]
  | cons c rest ih =>
    obtain ⟨ih1, ih2, ih3⟩ := ih
    by_cases hc : isJsSpace c = true
    · refine ⟨?_, ?_, ?_⟩
      · simp [collapseWsAux, hc, isJsSpace_space, ih3]
      · simp [collapseWsAux, hc, ih2]
      · simp [collapseWsAux, hc, ih3]
    · refine ⟨?_, ?_, ?_⟩
      · simp [collapseWsAux, hc, ih1]
      · simp [collapseWsAux, hc, ih1]
      · simp [collapseWsAux, hc, ih1]

/-- C10: `normalizeTitle` is idempotent — normalizing an already-normalized
title changes nothing, so cache operations and the in-flight registry agree
on one key for every case/whitespace variant of a title, already-normalized
inputs included. -/
theorem c10_normalizeTitle_idempotent :
    ∀ t : List Char, normalizeTitle (normalizeTitle t) = normalizeTitle t := by
  intro t
  have hmemfix : ∀ c ∈ normalizeTitle t, lcFixed c := by
    intro c hc
    rcases mem_collapseWsAux (trimStr (jsLowerStr t)) false c hc with h | h
    · rw [h]; exact lcFixed_special.2.2.2
    · rcases mem_jsLowerAux t [] c (mem_trimStr (jsLowerStr t) c h)
        with h' | ⟨d, _, hd⟩
      · rw [h']; exact lcFixed_special.2.2.1
      · exact lowerChar_mem_fixed d c hd
  have hlow : jsLowerStr (normalizeTitle t) = normalizeTitle t :=
    jsLowerAux_fixed (normalizeTitle t) hmemfix []
  have hhead : headWs (normalizeTitle t) = false := by
    have h := headWs_collapseWsAux (trimStr (jsLowerStr t))
    rw [headWs_trimStr] at h
    exact h
  have hlast : lastWs (normalizeTitle t) = false := by
    cases h0 : lastWs (normalizeTitle t) with
    | false => rfl
    | true =>
      have h1 : lastWs (trimStr (jsLowerStr t)) = true :=
        lastWs_collapseWsAux (trimStr (jsLowerStr t)) false h0
      rw [lastWs_trimStr] at h1
      exact absurd h1 (by decide)
  calc normalizeTitle (normalizeTitle t)
      = collapseWs (trimStr (jsLowerStr (normalizeTitle t))) := rfl
    _ = collapseWs (trimStr (normalizeTitle t)) := by rw [hlow]
    _ = collapseWs (normalizeTitle t) := by
          rw [trimStr_fix (normalizeTitle t) hhead hlast]
    _ = collapseWsAux false (collapseWsAux false (trimStr (jsLowerStr t))) :=
          rfl
    _ = collapseWsAux false (trimStr (jsLowerStr t)) :=
          (collapseWsAux_comp (trimStr (jsLowerStr t))).1
    _ = normalizeTitle t := rfl

end Icanhazpdf
